import Mathlib

/-
  Verification development for the zenoh FFI boundary layer
  (src/native/zenoh-ffi/src/lib.rs).

  The Rust source is shallowly embedded as pure Lean functions:
  - C pointers are modelled as `Option Nat` (`none` = NULL, `some a` = the
    address `a`; `Box::into_raw` never returns NULL, so every allocation is
    `some _`).
  - Inbound C strings are modelled by `CStr`: NULL, a byte sequence that is
    not valid UTF-8 (carrying the decode-error display text), or a decoded
    UTF-8 string.  A C string can never contain an interior NUL byte.
  - Byte buffers crossing the boundary are modelled as a memory function
    `Nat → Nat` at the pointer plus an explicit length; reading
    `from_raw_parts(p, len)` yields the first `len` bytes.
  - Calls into the external zenoh engine are modelled by oracles:
    `EngineOutcome` for `Result`-returning async operations (ok / err /
    panicked, the last one representing an internal fault raised while the
    body runs), `CallOutcome` for infallible external calls that can still
    panic.
  - The per-thread diagnostic slot (`LAST_ERROR`) is an explicit
    `ThreadState` threaded through every entry point.
  - The wrapper allocations reclaimed by the destroy entry points are an
    explicit `Heap` of live addresses; `Box::from_raw` on an address that
    is not live is undefined behavior in the source (double free) and is
    modelled as a distinguished `fault` outcome, which `catch_unwind`
    cannot mask.
-/

namespace ZenohFFI

/-- Status codes returned by code-returning boundary operations
(source: `enum ZenohError`). -/
inductive ZenohError where
  | Ok
  | InvalidConfig
  | SessionClosed
  | InvalidKeyExpr
  | PutFailed
  | NullPointer
  | Panic
  | Unknown
deriving DecidableEq, Repr

/-- The C discriminant of each status code (source: the explicit
discriminants `Ok = 0, …, Panic = 254, Unknown = 255`). -/
def ZenohError.code : ZenohError → Nat
  | ZenohError.Ok => 0
  | ZenohError.InvalidConfig => 1
  | ZenohError.SessionClosed => 2
  | ZenohError.InvalidKeyExpr => 3
  | ZenohError.PutFailed => 4
  | ZenohError.NullPointer => 5
  | ZenohError.Panic => 254
  | ZenohError.Unknown => 255

/-- Foreign-stable payload-encoding identifier
(source: `enum ZenohEncodingId`). -/
inductive ZenohEncodingId where
  | Empty
  | AppOctetStream
  | TextPlain
  | AppJson
  | TextJson
  | AppCbor
  | AppYaml
  | TextYaml
  | TextXml
  | AppXml
  | TextCsv
  | AppProtobuf
  | TextHtml
deriving DecidableEq, Repr

/-- An internal engine encoding (`zenoh::bytes::Encoding`), identified by
its textual form: the boundary layer only ever inspects
`encoding.to_string()`. -/
structure ZEncoding where
  display : String
deriving DecidableEq, Repr

/-- `Encoding::APPLICATION_OCTET_STREAM` of the external engine; its textual
form is the MIME string. -/
def Enc.APPLICATION_OCTET_STREAM : ZEncoding := ⟨"application/octet-stream"⟩

/-- `Encoding::TEXT_PLAIN`. -/
def Enc.TEXT_PLAIN : ZEncoding := ⟨"text/plain"⟩

/-- `Encoding::APPLICATION_JSON`. -/
def Enc.APPLICATION_JSON : ZEncoding := ⟨"application/json"⟩

/-- `Encoding::TEXT_JSON`. -/
def Enc.TEXT_JSON : ZEncoding := ⟨"text/json"⟩

/-- `Encoding::APPLICATION_CBOR`. -/
def Enc.APPLICATION_CBOR : ZEncoding := ⟨"application/cbor"⟩

/-- `Encoding::APPLICATION_YAML`. -/
def Enc.APPLICATION_YAML : ZEncoding := ⟨"application/yaml"⟩

/-- `Encoding::TEXT_YAML`. -/
def Enc.TEXT_YAML : ZEncoding := ⟨"text/yaml"⟩

/-- `Encoding::TEXT_XML`. -/
def Enc.TEXT_XML : ZEncoding := ⟨"text/xml"⟩

/-- `Encoding::APPLICATION_XML`. -/
def Enc.APPLICATION_XML : ZEncoding := ⟨"application/xml"⟩

/-- `Encoding::TEXT_CSV`. -/
def Enc.TEXT_CSV : ZEncoding := ⟨"text/csv"⟩

/-- `Encoding::APPLICATION_PROTOBUF`. -/
def Enc.APPLICATION_PROTOBUF : ZEncoding := ⟨"application/protobuf"⟩

/-- `Encoding::TEXT_HTML`. -/
def Enc.TEXT_HTML : ZEncoding := ⟨"text/html"⟩

/-- `Encoding::default()` of the external engine (zenoh 1.x):
`Encoding::ZENOH_BYTES`, whose textual form is `"zenoh/bytes"` (the
engine's generic bytes encoding, id 0).  Note that its textual form is not
the empty string. -/
def Enc.zenohDefault : ZEncoding := ⟨"zenoh/bytes"⟩

/-- Source: `fn encoding_to_id`.  The Rust `match enc_str.as_str()` over
string literals is a sequential comparison chain, rendered here as the
equivalent if-chain. -/
def encoding_to_id (encoding : ZEncoding) : ZenohEncodingId :=
  if encoding.display = "application/octet-stream" then ZenohEncodingId.AppOctetStream
  else if encoding.display = "text/plain" then ZenohEncodingId.TextPlain
  else if encoding.display = "application/json" then ZenohEncodingId.AppJson
  else if encoding.display = "text/json" then ZenohEncodingId.TextJson
  else if encoding.display = "application/cbor" then ZenohEncodingId.AppCbor
  else if encoding.display = "application/yaml" then ZenohEncodingId.AppYaml
  else if encoding.display = "text/yaml" then ZenohEncodingId.TextYaml
  else if encoding.display = "text/xml" then ZenohEncodingId.TextXml
  else if encoding.display = "application/xml" then ZenohEncodingId.AppXml
  else if encoding.display = "text/csv" then ZenohEncodingId.TextCsv
  else if encoding.display = "application/protobuf" then ZenohEncodingId.AppProtobuf
  else if encoding.display = "text/html" then ZenohEncodingId.TextHtml
  else if encoding.display = "" then ZenohEncodingId.Empty
  else ZenohEncodingId.AppOctetStream

/-- Source: `fn id_to_encoding`. -/
def id_to_encoding (id : ZenohEncodingId) : ZEncoding :=
  match id with
  | ZenohEncodingId.Empty => Enc.zenohDefault
  | ZenohEncodingId.AppOctetStream => Enc.APPLICATION_OCTET_STREAM
  | ZenohEncodingId.TextPlain => Enc.TEXT_PLAIN
  | ZenohEncodingId.AppJson => Enc.APPLICATION_JSON
  | ZenohEncodingId.TextJson => Enc.TEXT_JSON
  | ZenohEncodingId.AppCbor => Enc.APPLICATION_CBOR
  | ZenohEncodingId.AppYaml => Enc.APPLICATION_YAML
  | ZenohEncodingId.TextYaml => Enc.TEXT_YAML
  | ZenohEncodingId.TextXml => Enc.TEXT_XML
  | ZenohEncodingId.AppXml => Enc.APPLICATION_XML
  | ZenohEncodingId.TextCsv => Enc.TEXT_CSV
  | ZenohEncodingId.AppProtobuf => Enc.APPLICATION_PROTOBUF
  | ZenohEncodingId.TextHtml => Enc.TEXT_HTML

/-- The encoding strings recognized by `encoding_to_id` (everything that
does not fall through to the generic octet-stream arm). -/
def recognizedEncodings : List String :=
  ["application/octet-stream", "text/plain", "application/json", "text/json",
   "application/cbor", "application/yaml", "text/yaml", "text/xml",
   "application/xml", "text/csv", "application/protobuf", "text/html", ""]

/-- Whether a Rust `String` contains an interior NUL byte, which makes
`CString::new` fail. -/
def hasInteriorNul (s : String) : Bool :=
  s.toList.contains (Char.ofNat 0)

/-- `CString::new(s).ok()`: `some s` when `s` has no interior NUL byte,
`none` otherwise. -/
def cstringNew (s : String) : Option String :=
  if hasInteriorNul s then none else some s

/-- The calling thread's view of the thread-local `LAST_ERROR` slot. -/
structure ThreadState where
  lastError : Option String
deriving DecidableEq, Repr

/-- Source: `fn set_error` — overwrites the slot with
`CString::new(msg.to_string()).ok()`. -/
def set_error (msg : String) (_st : ThreadState) : ThreadState :=
  { lastError := cstringNew msg }

/-- Source: `fn clear_error` — resets the slot to `None`. -/
def clear_error (_st : ThreadState) : ThreadState :=
  { lastError := none }

/-- Source: `fn zenoh_last_error` — returns a pointer to the stored message
(`NULL` when the slot is empty). -/
def zenoh_last_error (st : ThreadState) : Option String :=
  st.lastError

/-- An inbound `*const c_char` argument: NULL, a non-UTF-8 byte sequence
(carrying the `Utf8Error` display text used in diagnostics), or a decoded
UTF-8 string.  C strings are NUL-terminated, so the decoded string has no
interior NUL. -/
inductive CStr where
  | null
  | invalid (errDesc : String)
  | valid (s : String)
deriving DecidableEq, Repr

/-- Outcome of a `Result`-returning call into the external engine, run to
completion through the blocking bridge.  `panicked` represents an internal
fault (assertion failure, unwrap of an absent value, …) raised while the
entry point's body runs; it unwinds to the `panic::catch_unwind` at the
boundary. -/
inductive EngineOutcome (α : Type) where
  | ok (a : α)
  | err (msg : String)
  | panicked
deriving DecidableEq, Repr

/-- Outcome of an infallible external call (`query.selector()`,
`session.zid()`, …) that can still raise an internal fault. -/
inductive CallOutcome (α : Type) where
  | ret (a : α)
  | panicked
deriving DecidableEq, Repr

/-- Source: `fn run_blocking` / `fn run_blocking_local`.  Both run the
asynchronous operation to completion and hand its (completed) outcome back
to the caller; a panic inside the operation (or the `expect` on the
result channel) propagates to the caller's `catch_unwind`.  The
runtime-dispatch choice (block directly vs. spawn) does not affect the
returned value and is not observable here. -/
def run_blocking {α : Type} (outcome : EngineOutcome α) : EngineOutcome α :=
  outcome

/-- Reading an inbound byte buffer, mirroring the recurring source pattern
`if payload.is_null() || payload_len == 0 { Vec::new() } else
{ slice::from_raw_parts(payload, payload_len).to_vec() }`. -/
def readBytes (payload : Option (Nat → Nat)) (len : Nat) : List Nat :=
  match payload with
  | none => []
  | some mem => if len = 0 then [] else (List.range len).map mem

/-- The set of live wrapper allocations handed out by `Box::into_raw`. -/
structure Heap where
  live : List Nat
deriving DecidableEq, Repr

/-- Whether an address is a currently-live allocation. -/
def Heap.isLive (h : Heap) (a : Nat) : Bool :=
  h.live.contains a

/-- Reclaiming an allocation. -/
def Heap.free (h : Heap) (a : Nat) : Heap :=
  { live := h.live.erase a }

/-- Result of a destroy entry point.  `returned` is a normal return;
`fault` models `Box::from_raw` applied to an address that is not a live
allocation of the matching wrapper type (double free / foreign pointer),
which is undefined behavior in the source — it is not a panic, so
`catch_unwind` does not convert it into a normal return. -/
inductive DestroyResult where
  | returned (heap : Heap) (st : ThreadState)
  | fault
deriving DecidableEq, Repr

/-- Common body of all destroy entry points (`zenoh_close`,
`zenoh_undeclare_*`, `zenoh_query_drop`, `zenoh_free_string`): return
immediately on NULL, otherwise reclaim the allocation with
`Box::from_raw` (resp. `CString::from_raw`).  None of them touches the
thread-local error slot. -/
def destroyOp (p : Option Nat) (heap : Heap) (st : ThreadState) : DestroyResult :=
  match p with
  | none => DestroyResult.returned heap st
  | some a => if heap.isLive a then DestroyResult.returned (heap.free a) st else DestroyResult.fault

/-- Source: `fn zenoh_close`. -/
def zenoh_close : Option Nat → Heap → ThreadState → DestroyResult := destroyOp

/-- Source: `fn zenoh_undeclare_publisher`. -/
def zenoh_undeclare_publisher : Option Nat → Heap → ThreadState → DestroyResult := destroyOp

/-- Source: `fn zenoh_undeclare_subscriber`. -/
def zenoh_undeclare_subscriber : Option Nat → Heap → ThreadState → DestroyResult := destroyOp

/-- Source: `fn zenoh_undeclare_queryable`. -/
def zenoh_undeclare_queryable : Option Nat → Heap → ThreadState → DestroyResult := destroyOp

/-- Source: `fn zenoh_undeclare_querier`. -/
def zenoh_undeclare_querier : Option Nat → Heap → ThreadState → DestroyResult := destroyOp

/-- Source: `fn zenoh_liveliness_undeclare_token`. -/
def zenoh_liveliness_undeclare_token : Option Nat → Heap → ThreadState → DestroyResult := destroyOp

/-- Source: `fn zenoh_query_drop`. -/
def zenoh_query_drop : Option Nat → Heap → ThreadState → DestroyResult := destroyOp

/-- Source: `fn zenoh_free_string`. -/
def zenoh_free_string : Option Nat → Heap → ThreadState → DestroyResult := destroyOp

/-- Result of a pointer-returning entry point: the thread state after the
call and the returned pointer (`none` = NULL; `some a` is the non-null
address produced by `Box::into_raw` / `CString::into_raw`). -/
structure PtrResult where
  state : ThreadState
  ret : Option Nat
deriving DecidableEq, Repr

/-- Result of a code-returning entry point. -/
structure CodeResult where
  state : ThreadState
  code : ZenohError
deriving DecidableEq, Repr

/-- Which configuration `zenoh_open` hands to the engine. -/
inductive ConfigChoice where
  | defaultConfig
  | parsed (s : String)
deriving DecidableEq, Repr

/-- Result of `zenoh_open`: thread state, returned pointer, and — for
observability of "no asynchronous open is attempted" — the configuration
the engine open was invoked with (`none` when the engine was never
invoked). -/
structure OpenResult where
  state : ThreadState
  ret : Option Nat
  opened : Option ConfigChoice
deriving DecidableEq, Repr

/-- The tail of `zenoh_open` from the `run_blocking(zenoh::open(config))`
call on: engine success allocates the `SessionWrapper` box (`addr`),
failure and panic store a diagnostic and return NULL. -/
def zenoh_open_engine (cfg : ConfigChoice) (engine : EngineOutcome Nat)
    (st : ThreadState) : OpenResult :=
  match run_blocking engine with
  | EngineOutcome.ok addr => { state := st, ret := some addr, opened := some cfg }
  | EngineOutcome.err e =>
      { state := set_error ("Failed to open session: " ++ e) st, ret := none, opened := some cfg }
  | EngineOutcome.panicked =>
      { state := set_error "Panic occurred in zenoh_open" st, ret := none, opened := some cfg }

/-- Source: `fn zenoh_open`.  `parse` is the external JSON5 configuration
parser (`Config::from_json5`), applied only to non-empty decoded text;
`engine` is the outcome of the asynchronous `zenoh::open`. -/
def zenoh_open (config_json : CStr) (parse : String → Except String Unit)
    (engine : EngineOutcome Nat) (st : ThreadState) : OpenResult :=
  let st1 := clear_error st
  match config_json with
  | CStr.null => zenoh_open_engine ConfigChoice.defaultConfig engine st1
  | CStr.invalid e =>
      { state := set_error ("Invalid UTF-8 in config: " ++ e) st1, ret := none, opened := none }
  | CStr.valid s =>
      if s.isEmpty then zenoh_open_engine ConfigChoice.defaultConfig engine st1
      else
        match parse s with
        | Except.error e =>
            { state := set_error ("Config parse error: " ++ e) st1, ret := none, opened := none }
        | Except.ok _ => zenoh_open_engine (ConfigChoice.parsed s) engine st1

/-- Common body of the declare-shaped pointer-returning entry points
(`zenoh_declare_publisher`, `zenoh_declare_subscriber`,
`zenoh_declare_queryable`, `zenoh_declare_querier`,
`zenoh_liveliness_declare_token`, `zenoh_liveliness_declare_subscriber`),
which are textually identical in the source up to their diagnostic
strings: clear the slot, check the session and key pointers, decode the
key as UTF-8, run the asynchronous declare through the blocking bridge,
and box the wrapper on success.  The callback/context arguments of the
subscriber-shaped variants never affect control flow or the returned
value (the callback body is modelled separately by `buildSampleData`). -/
def declareOp (panicMsg failMsg : String) (session : Option Nat) (key_expr : CStr)
    (engine : EngineOutcome Nat) (st : ThreadState) : PtrResult :=
  let st1 := clear_error st
  match session with
  | none => { state := set_error "Session pointer is null" st1, ret := none }
  | some _ =>
    match key_expr with
    | CStr.null => { state := set_error "Key expression is null" st1, ret := none }
    | CStr.invalid e =>
        { state := set_error ("Invalid UTF-8 in key expression: " ++ e) st1, ret := none }
    | CStr.valid _ =>
      match run_blocking engine with
      | EngineOutcome.ok addr => { state := st1, ret := some addr }
      | EngineOutcome.err e => { state := set_error (failMsg ++ e) st1, ret := none }
      | EngineOutcome.panicked => { state := set_error panicMsg st1, ret := none }

/-- Source: `fn zenoh_declare_publisher`. -/
def zenoh_declare_publisher :
    Option Nat → CStr → EngineOutcome Nat → ThreadState → PtrResult :=
  declareOp "Panic occurred in zenoh_declare_publisher" "Failed to declare publisher: "

/-- Source: `fn zenoh_declare_subscriber`. -/
def zenoh_declare_subscriber :
    Option Nat → CStr → EngineOutcome Nat → ThreadState → PtrResult :=
  declareOp "Panic occurred in zenoh_declare_subscriber" "Failed to declare subscriber: "

/-- Source: `fn zenoh_declare_queryable`. -/
def zenoh_declare_queryable :
    Option Nat → CStr → EngineOutcome Nat → ThreadState → PtrResult :=
  declareOp "Panic occurred in zenoh_declare_queryable" "Failed to declare queryable: "

/-- Source: `fn zenoh_declare_querier`. -/
def zenoh_declare_querier :
    Option Nat → CStr → EngineOutcome Nat → ThreadState → PtrResult :=
  declareOp "Panic occurred in zenoh_declare_querier" "Failed to declare querier: "

/-- Source: `fn zenoh_liveliness_declare_token`. -/
def zenoh_liveliness_declare_token :
    Option Nat → CStr → EngineOutcome Nat → ThreadState → PtrResult :=
  declareOp "Panic occurred in zenoh_liveliness_declare_token"
    "Failed to declare liveliness token: "

/-- Source: `fn zenoh_liveliness_declare_subscriber`. -/
def zenoh_liveliness_declare_subscriber :
    Option Nat → CStr → EngineOutcome Nat → ThreadState → PtrResult :=
  declareOp "Panic occurred in zenoh_liveliness_declare_subscriber"
    "Failed to declare liveliness subscriber: "

/-- The display text of `std::ffi::NulError` ("nul byte found in provided
data at position …"); the position index is elided because only the
presence (and NUL-freeness) of the diagnostic matters at the boundary. -/
def nulErrorDesc : String := "nul byte found in provided data"

/-- Source: `fn zenoh_query_selector`.  `sel` is the outcome of the
external `query.selector().key_expr().as_str()` chain; `fresh` is the
address `CString::into_raw` hands out on success. -/
def zenoh_query_selector (query : Option Nat) (sel : CallOutcome String)
    (fresh : Nat) (st : ThreadState) : PtrResult :=
  let st1 := clear_error st
  match query with
  | none => { state := set_error "Query pointer is null" st1, ret := none }
  | some _ =>
    match sel with
    | CallOutcome.panicked =>
        { state := set_error "Panic occurred in zenoh_query_selector" st1, ret := none }
    | CallOutcome.ret s =>
      match cstringNew s with
      | some _ => { state := st1, ret := some fresh }
      | none => { state := set_error ("Invalid string: " ++ nulErrorDesc) st1, ret := none }

/-- One lowercase hexadecimal digit. -/
def hexDigit (n : Nat) : Char :=
  "0123456789abcdef".toList.getD n (Char.ofNat 48)

/-- A byte rendered as two lowercase hexadecimal digits (the 02x
format). -/
def hexByte (b : Nat) : String :=
  String.mk [hexDigit (b / 16 % 16), hexDigit (b % 16)]

/-- The stable hex rendering of the ZenohId bytes built in
`zenoh_session_zid`: `zid_bytes.iter().map(|b| format
two-digit lowercase hex).collect()`. -/
def zidHex (bytes : List Nat) : String :=
  String.join (bytes.map hexByte)

/-- Source: `fn zenoh_session_zid`.  `zid` is the outcome of the external
`session.zid().to_le_bytes()` call; `fresh` is the address
`CString::into_raw` hands out on success. -/
def zenoh_session_zid (session : Option Nat) (zid : CallOutcome (List Nat))
    (fresh : Nat) (st : ThreadState) : PtrResult :=
  let st1 := clear_error st
  match session with
  | none => { state := set_error "Session pointer is null" st1, ret := none }
  | some _ =>
    match zid with
    | CallOutcome.panicked =>
        { state := set_error "Panic occurred in zenoh_session_zid" st1, ret := none }
    | CallOutcome.ret bytes =>
      match cstringNew (zidHex bytes) with
      | some _ => { state := st1, ret := some fresh }
      | none =>
          { state := set_error ("Failed to create ZID string: " ++ nulErrorDesc) st1, ret := none }

/-- Result of a put-shaped entry point; `sent` is the payload handed to the
engine's put primitive (`none` when the engine was never invoked). -/
structure PutResult where
  state : ThreadState
  code : ZenohError
  sent : Option (List Nat)
deriving DecidableEq, Repr

/-- Source: `fn zenoh_publisher_put`.  Checks the publisher pointer, then
rejects a NULL payload with nonzero length, reads the payload (empty when
NULL or zero-length), and runs the asynchronous put. -/
def zenoh_publisher_put (publisher : Option Nat) (payload : Option (Nat → Nat))
    (payload_len : Nat) (engine : EngineOutcome Unit) (st : ThreadState) : PutResult :=
  let st1 := clear_error st
  match publisher with
  | none =>
      { state := set_error "Publisher pointer is null" st1,
        code := ZenohError.NullPointer, sent := none }
  | some _ =>
    if payload.isNone && decide (0 < payload_len) then
      { state := set_error "Payload pointer is null but length > 0" st1,
        code := ZenohError.NullPointer, sent := none }
    else
      let data := readBytes payload payload_len
      match run_blocking engine with
      | EngineOutcome.ok _ => { state := st1, code := ZenohError.Ok, sent := some data }
      | EngineOutcome.err e =>
          { state := set_error ("Put failed: " ++ e) st1,
            code := ZenohError.PutFailed, sent := some data }
      | EngineOutcome.panicked =>
          { state := set_error "Panic occurred in zenoh_publisher_put" st1,
            code := ZenohError.Panic, sent := some data }

/-- Source: `fn zenoh_publisher_put_with_encoding`.  Identical control flow
to `zenoh_publisher_put` with an additional encoding argument mapped
through `id_to_encoding` before the put. -/
def zenoh_publisher_put_with_encoding (publisher : Option Nat)
    (payload : Option (Nat → Nat)) (payload_len : Nat) (encoding_id : ZenohEncodingId)
    (engine : EngineOutcome Unit) (st : ThreadState) : PutResult :=
  let st1 := clear_error st
  match publisher with
  | none =>
      { state := set_error "Publisher pointer is null" st1,
        code := ZenohError.NullPointer, sent := none }
  | some _ =>
    if payload.isNone && decide (0 < payload_len) then
      { state := set_error "Payload pointer is null but length > 0" st1,
        code := ZenohError.NullPointer, sent := none }
    else
      let data := readBytes payload payload_len
      let _encoding := id_to_encoding encoding_id
      match run_blocking engine with
      | EngineOutcome.ok _ => { state := st1, code := ZenohError.Ok, sent := some data }
      | EngineOutcome.err e =>
          { state := set_error ("Put with encoding failed: " ++ e) st1,
            code := ZenohError.PutFailed, sent := some data }
      | EngineOutcome.panicked =>
          { state := set_error "Panic occurred in zenoh_publisher_put_with_encoding" st1,
            code := ZenohError.Panic, sent := some data }

/-- Source: `fn zenoh_put`.  Note: unlike the publisher variants, this
entry point has no NULL-payload-with-nonzero-length check; a NULL payload
always reads as the empty buffer. -/
def zenoh_put (session : Option Nat) (key_expr : CStr) (payload : Option (Nat → Nat))
    (payload_len : Nat) (engine : EngineOutcome Unit) (st : ThreadState) : PutResult :=
  let st1 := clear_error st
  match session with
  | none =>
      { state := set_error "Session pointer is null" st1,
        code := ZenohError.NullPointer, sent := none }
  | some _ =>
    match key_expr with
    | CStr.null =>
        { state := set_error "Key expression is null" st1,
          code := ZenohError.NullPointer, sent := none }
    | CStr.invalid e =>
        { state := set_error ("Invalid UTF-8 in key expression: " ++ e) st1,
          code := ZenohError.InvalidKeyExpr, sent := none }
    | CStr.valid _ =>
      let data := readBytes payload payload_len
      match run_blocking engine with
      | EngineOutcome.ok _ => { state := st1, code := ZenohError.Ok, sent := some data }
      | EngineOutcome.err e =>
          { state := set_error ("Put failed: " ++ e) st1,
            code := ZenohError.PutFailed, sent := some data }
      | EngineOutcome.panicked =>
          { state := set_error "Panic occurred in zenoh_put" st1,
            code := ZenohError.Panic, sent := some data }

/-- Source: `fn zenoh_put_with_encoding`.  Has the
NULL-payload-with-nonzero-length check (before the key UTF-8 decode). -/
def zenoh_put_with_encoding (session : Option Nat) (key_expr : CStr)
    (payload : Option (Nat → Nat)) (payload_len : Nat) (encoding_id : ZenohEncodingId)
    (engine : EngineOutcome Unit) (st : ThreadState) : PutResult :=
  let st1 := clear_error st
  match session with
  | none =>
      { state := set_error "Session pointer is null" st1,
        code := ZenohError.NullPointer, sent := none }
  | some _ =>
    if key_expr = CStr.null then
      { state := set_error "Key expression is null" st1,
        code := ZenohError.NullPointer, sent := none }
    else if payload.isNone && decide (0 < payload_len) then
      { state := set_error "Payload pointer is null but length > 0" st1,
        code := ZenohError.NullPointer, sent := none }
    else
      match key_expr with
      | CStr.null =>
          { state := set_error "Key expression is null" st1,
            code := ZenohError.NullPointer, sent := none }
      | CStr.invalid e =>
          { state := set_error ("Invalid UTF-8 in key expression: " ++ e) st1,
            code := ZenohError.InvalidKeyExpr, sent := none }
      | CStr.valid _ =>
        let data := readBytes payload payload_len
        let _encoding := id_to_encoding encoding_id
        match run_blocking engine with
        | EngineOutcome.ok _ => { state := st1, code := ZenohError.Ok, sent := some data }
        | EngineOutcome.err e =>
            { state := set_error ("Put with encoding failed: " ++ e) st1,
              code := ZenohError.PutFailed, sent := some data }
        | EngineOutcome.panicked =>
            { state := set_error "Panic occurred in zenoh_put_with_encoding" st1,
              code := ZenohError.Panic, sent := some data }

/-- Source: `fn zenoh_delete`. -/
def zenoh_delete (session : Option Nat) (key_expr : CStr)
    (engine : EngineOutcome Unit) (st : ThreadState) : CodeResult :=
  let st1 := clear_error st
  match session with
  | none =>
      { state := set_error "Session pointer is null" st1, code := ZenohError.NullPointer }
  | some _ =>
    match key_expr with
    | CStr.null =>
        { state := set_error "Key expression is null" st1, code := ZenohError.NullPointer }
    | CStr.invalid e =>
        { state := set_error ("Invalid UTF-8 in key expression: " ++ e) st1,
          code := ZenohError.InvalidKeyExpr }
    | CStr.valid _ =>
      match run_blocking engine with
      | EngineOutcome.ok _ => { state := st1, code := ZenohError.Ok }
      | EngineOutcome.err e =>
          { state := set_error ("Delete failed: " ++ e) st1, code := ZenohError.Unknown }
      | EngineOutcome.panicked =>
          { state := set_error "Panic occurred in zenoh_delete" st1, code := ZenohError.Panic }

/-- Source: `fn zenoh_get`.  `engine` is the outcome of the asynchronous
`session.get(selector)` plus reply loop (the per-reply marshaling is
modelled by `buildSampleData`): ok once the reply stream is exhausted,
err when the engine rejects the query. -/
def zenoh_get (session : Option Nat) (selector : CStr)
    (engine : EngineOutcome Unit) (st : ThreadState) : CodeResult :=
  let st1 := clear_error st
  match session with
  | none =>
      { state := set_error "Session pointer is null" st1, code := ZenohError.NullPointer }
  | some _ =>
    match selector with
    | CStr.null =>
        { state := set_error "Selector is null" st1, code := ZenohError.NullPointer }
    | CStr.invalid e =>
        { state := set_error ("Invalid UTF-8 in selector: " ++ e) st1,
          code := ZenohError.InvalidKeyExpr }
    | CStr.valid _ =>
      match run_blocking engine with
      | EngineOutcome.ok _ => { state := st1, code := ZenohError.Ok }
      | EngineOutcome.err e =>
          { state := set_error ("Get query failed: " ++ e) st1, code := ZenohError.Unknown }
      | EngineOutcome.panicked =>
          { state := set_error "Panic occurred in zenoh_get" st1, code := ZenohError.Panic }

/-- Source: `fn zenoh_querier_get`. -/
def zenoh_querier_get (querier : Option Nat) (engine : EngineOutcome Unit)
    (st : ThreadState) : CodeResult :=
  let st1 := clear_error st
  match querier with
  | none =>
      { state := set_error "Querier pointer is null" st1, code := ZenohError.NullPointer }
  | some _ =>
    match run_blocking engine with
    | EngineOutcome.ok _ => { state := st1, code := ZenohError.Ok }
    | EngineOutcome.err e =>
        { state := set_error ("Querier get failed: " ++ e) st1, code := ZenohError.Unknown }
    | EngineOutcome.panicked =>
        { state := set_error "Panic occurred in zenoh_querier_get" st1, code := ZenohError.Panic }

/-- Result of `zenoh_query_reply`: a normal return carries the thread
state, the status code, and the heap after the call (the query wrapper may
have been reclaimed); `fault` models `Box::from_raw` on a non-live
address. -/
inductive ReplyResult where
  | returned (st : ThreadState) (code : ZenohError) (heap : Heap)
  | fault
deriving DecidableEq, Repr

/-- Source: `fn zenoh_query_reply`.  After the three NULL checks the query
wrapper is reclaimed with `Box::from_raw` — before the key expression's
UTF-8 is validated and before the reply is attempted — so every later
failure path leaves the query already freed. -/
def zenoh_query_reply (query : Option Nat) (key_expr : CStr)
    (payload : Option (Nat → Nat)) (payload_len : Nat)
    (engine : EngineOutcome Unit) (heap : Heap) (st : ThreadState) : ReplyResult :=
  let st1 := clear_error st
  match query with
  | none =>
      ReplyResult.returned (set_error "Query pointer is null" st1) ZenohError.NullPointer heap
  | some q =>
    if key_expr = CStr.null then
      ReplyResult.returned (set_error "Key expression is null" st1) ZenohError.NullPointer heap
    else if payload.isNone then
      ReplyResult.returned (set_error "Payload pointer is null" st1) ZenohError.NullPointer heap
    else if heap.isLive q then
      let heap1 := heap.free q
      match key_expr with
      | CStr.null =>
          ReplyResult.returned (set_error "Key expression is null" st1)
            ZenohError.NullPointer heap1
      | CStr.invalid e =>
          ReplyResult.returned (set_error ("Invalid UTF-8 in key expression: " ++ e) st1)
            ZenohError.InvalidKeyExpr heap1
      | CStr.valid _ =>
        let _data := readBytes payload payload_len
        match run_blocking engine with
        | EngineOutcome.ok _ => ReplyResult.returned st1 ZenohError.Ok heap1
        | EngineOutcome.err e =>
            ReplyResult.returned (set_error ("Query reply failed: " ++ e) st1)
              ZenohError.Unknown heap1
        | EngineOutcome.panicked =>
            ReplyResult.returned (set_error "Panic occurred in zenoh_query_reply" st1)
              ZenohError.Panic heap1
    else ReplyResult.fault

/-- An entry of the inbound attachment array (`struct ZenohAttachmentItem`):
a C-string key, a value pointer and a value length. -/
structure CAttachmentItem where
  key : CStr
  value : Option (Nat → Nat)
  value_len : Nat

/-- `(n as u32).to_le_bytes()`: the four little-endian bytes of `n`
truncated to 32 bits. -/
def u32le (n : Nat) : List Nat :=
  [n % 2 ^ 32 % 256, n % 2 ^ 32 / 2 ^ 8 % 256, n % 2 ^ 32 / 2 ^ 16 % 256, n % 2 ^ 32 / 2 ^ 24 % 256]

/-- `s.as_bytes()` of a decoded UTF-8 key: its UTF-8 byte sequence. -/
def utf8Bytes (s : String) : List Nat :=
  s.toUTF8.toList.map (fun b => b.toNat)

/-- The bytes one attachment entry contributes to the serialized
attachment: nothing when the key pointer is NULL or the key is not valid
UTF-8 (the loop's `continue`), otherwise
`key_len(4 LE) ++ key ++ value_len(4 LE) ++ value` where a NULL or
zero-length value reads as the empty buffer. -/
def serializeItem (it : CAttachmentItem) : List Nat :=
  match it.key with
  | CStr.null => []
  | CStr.invalid _ => []
  | CStr.valid s =>
    let kb := utf8Bytes s
    let vb := readBytes it.value it.value_len
    u32le kb.length ++ kb ++ u32le vb.length ++ vb

/-- The serialization loop of `zenoh_put_with_attachment`: a running
`serialized` buffer extended per item. -/
def serializeLoop (items : List CAttachmentItem) : List Nat :=
  items.foldl (fun acc it => acc ++ serializeItem it) []

/-- The `attachment_bytes` computation of `zenoh_put_with_attachment`:
`None` when the item pointer is NULL or the count is zero, or when the
serialization loop produced no bytes. -/
def attachmentBytes (items : Option (List CAttachmentItem)) : Option (List Nat) :=
  match items with
  | none => none
  | some l =>
    if l.length = 0 then none
    else
      let serialized := serializeLoop l
      if serialized.isEmpty then none else some serialized

/-- Result of `zenoh_put_with_attachment`; `sentAttachment` records the
attachment handed to the engine put (`none` when the engine was never
invoked, `some none` for a put with no attachment). -/
structure AttachPutResult where
  state : ThreadState
  code : ZenohError
  sentAttachment : Option (Option (List Nat))
deriving DecidableEq, Repr

/-- Source: `fn zenoh_put_with_attachment`.  `items` models the
`attachment_items`/`attachment_count` pair: `none` for a NULL item
pointer, otherwise the `attachment_count` entries read from it. -/
def zenoh_put_with_attachment (session : Option Nat) (key_expr : CStr)
    (payload : Option (Nat → Nat)) (payload_len : Nat)
    (items : Option (List CAttachmentItem))
    (engine : EngineOutcome Unit) (st : ThreadState) : AttachPutResult :=
  let st1 := clear_error st
  match session with
  | none =>
      { state := set_error "Session pointer is null" st1,
        code := ZenohError.NullPointer, sentAttachment := none }
  | some _ =>
    if key_expr = CStr.null then
      { state := set_error "Key expression is null" st1,
        code := ZenohError.NullPointer, sentAttachment := none }
    else if payload.isNone && decide (0 < payload_len) then
      { state := set_error "Payload pointer is null but length > 0" st1,
        code := ZenohError.NullPointer, sentAttachment := none }
    else
      match key_expr with
      | CStr.null =>
          { state := set_error "Key expression is null" st1,
            code := ZenohError.NullPointer, sentAttachment := none }
      | CStr.invalid e =>
          { state := set_error ("Invalid UTF-8 in key expression: " ++ e) st1,
            code := ZenohError.InvalidKeyExpr, sentAttachment := none }
      | CStr.valid _ =>
        let _data := readBytes payload payload_len
        let att := attachmentBytes items
        match run_blocking engine with
        | EngineOutcome.ok _ =>
            { state := st1, code := ZenohError.Ok, sentAttachment := some att }
        | EngineOutcome.err e =>
            { state := set_error ("Put with attachment failed: " ++ e) st1,
              code := ZenohError.PutFailed, sentAttachment := some att }
        | EngineOutcome.panicked =>
            { state := set_error "Panic occurred in zenoh_put_with_attachment" st1,
              code := ZenohError.Panic, sentAttachment := some att }

/-- Sample kind as delivered by the engine (`zenoh::sample::SampleKind`). -/
inductive SampleKind where
  | Put
  | Delete
deriving DecidableEq, Repr

/-- Foreign-stable sample kind (`enum ZenohSampleKind`). -/
inductive ZenohSampleKind where
  | Put
  | Delete
deriving DecidableEq, Repr

/-- A logical timestamp carried by an engine sample: the NTP64 64-bit time
value (`ts.get_time().as_u64()`) and the originating endpoint's identifier
bytes (`ts.get_id().to_le_bytes()`, 16 bytes for a ZenohId). -/
structure TimestampIn where
  ntp64 : Nat
  idBytes : List Nat
deriving DecidableEq, Repr

/-- An engine-delivered sample as seen by the marshaling closures. -/
structure SampleIn where
  key_expr : String
  payload : List Nat
  kind : SampleKind
  encoding : ZEncoding
  timestamp : Option TimestampIn
deriving DecidableEq, Repr

/-- The flat `struct SampleData` view handed to a foreign callback. -/
structure SampleData where
  key_expr : String
  payload : List Nat
  payload_len : Nat
  kind : ZenohSampleKind
  encoding_id : ZenohEncodingId
  timestamp_valid : Bool
  timestamp_time : Nat
  timestamp_id : List Nat
deriving DecidableEq, Repr

/-- Outcome of marshaling one engine sample for a callback invocation. -/
inductive MarshalResult where
  | skipped
  | panicked
  | delivered (sd : SampleData)
deriving DecidableEq, Repr

/-- The common marshaling body of the callback closures in
`zenoh_declare_subscriber`, `zenoh_get` and `zenoh_querier_get` (the
closure bodies are textually identical in the source): build the C key
string (skipping the callback when the key has an interior NUL), copy the
payload, map kind and encoding, and decode the timestamp.  When a
timestamp is present, `copy_from_slice` fills the 16-byte id from
`id_bytes[..16.min(id_bytes.len())]`; a source id shorter than 16 bytes
would make `copy_from_slice` panic.  When no timestamp is present the
valid flag is false and the time and id fields are zeroed. -/
def buildSampleData (s : SampleIn) : MarshalResult :=
  match cstringNew s.key_expr with
  | none => MarshalResult.skipped
  | some k =>
    let kind := match s.kind with
      | SampleKind.Put => ZenohSampleKind.Put
      | SampleKind.Delete => ZenohSampleKind.Delete
    let encoding_id := encoding_to_id s.encoding
    match s.timestamp with
    | some ts =>
      if ts.idBytes.length < 16 then MarshalResult.panicked
      else
        MarshalResult.delivered
          { key_expr := k, payload := s.payload, payload_len := s.payload.length,
            kind := kind, encoding_id := encoding_id,
            timestamp_valid := true, timestamp_time := ts.ntp64,
            timestamp_id := ts.idBytes.take 16 }
    | none =>
        MarshalResult.delivered
          { key_expr := k, payload := s.payload, payload_len := s.payload.length,
            kind := kind, encoding_id := encoding_id,
            timestamp_valid := false, timestamp_time := 0,
            timestamp_id := List.replicate 16 0 }

/-- The key string of a well-formed attachment entry (`none` for a NULL or
non-UTF-8 key, the two malformed shapes the loop skips). -/
def itemKeyString (it : CAttachmentItem) : Option String :=
  match it.key with
  | CStr.valid s => some s
  | _ => none

/-- One serialized attachment entry as the spec words it: key-length
(4 bytes little-endian), key bytes, value-length (4 bytes little-endian),
value bytes. -/
def specEncodeEntry (key : String) (value : List Nat) : List Nat :=
  u32le (utf8Bytes key).length ++ utf8Bytes key ++ u32le value.length ++ value

/-- The attachment serialization as the spec words it: every well-formed
entry, in order, encoded by `specEncodeEntry`; malformed entries are
dropped. -/
def specAttachmentSerialization (items : List CAttachmentItem) : List Nat :=
  (items.filterMap (fun it =>
    (itemKeyString it).map (fun s => specEncodeEntry s (readBytes it.value it.value_len)))).flatten

/-- The thread state of a normal `zenoh_query_reply` return. -/
def ReplyResult.stateOf : ReplyResult → Option ThreadState
  | ReplyResult.returned st _ _ => some st
  | ReplyResult.fault => none

/-- The status code of a normal `zenoh_query_reply` return. -/
def ReplyResult.codeOf : ReplyResult → Option ZenohError
  | ReplyResult.returned _ c _ => some c
  | ReplyResult.fault => none

/-- The decode-error text of an inbound C string has no interior NUL. -/
def CStr.descNulFree : CStr → Prop
  | CStr.invalid e => hasInteriorNul e = false
  | _ => True

/-- The error text of an engine outcome has no interior NUL. -/
def EngineOutcome.errNulFree {α : Type} : EngineOutcome α → Prop
  | EngineOutcome.err e => hasInteriorNul e = false
  | _ => True

-- ===================== helper lemmas =====================

theorem hasInteriorNul_append (a b : String) :
    hasInteriorNul (a ++ b) = (hasInteriorNul a || hasInteriorNul b) := by
  simp [hasInteriorNul]

theorem cstringNew_append_of_nulFree {a b : String}
    (ha : hasInteriorNul a = false) (hb : hasInteriorNul b = false) :
    cstringNew (a ++ b) = some (a ++ b) := by
  simp [cstringNew, hasInteriorNul_append, ha, hb]

theorem isLive_singleton (a : Nat) : Heap.isLive ⟨[a]⟩ a = true := by
  simp [Heap.isLive]

theorem string_empty_isEmpty : "".isEmpty = true := by decide

theorem free_singleton (a : Nat) : Heap.free ⟨[a]⟩ a = ⟨[]⟩ := by
  simp [Heap.free]

theorem foldl_append_flatten {α β : Type} (f : α → List β) :
    ∀ (l : List α) (acc : List β),
      l.foldl (fun a i => a ++ f i) acc = acc ++ (l.map f).flatten := by
  intro l
  induction l with
  | nil => intro acc; simp
  | cons x xs ih => intro acc; simp [ih, List.append_assoc]

theorem serializeItem_eq_spec (it : CAttachmentItem) :
    serializeItem it =
      match itemKeyString it with
      | some s => specEncodeEntry s (readBytes it.value it.value_len)
      | none => [] := by
  cases h : it.key <;> simp [serializeItem, itemKeyString, specEncodeEntry, h]

theorem serializeLoop_eq_spec (items : List CAttachmentItem) :
    serializeLoop items = specAttachmentSerialization items := by
  rw [serializeLoop, foldl_append_flatten, List.nil_append]
  induction items with
  | nil => simp [specAttachmentSerialization]
  | cons x xs ih =>
    simp only [List.map_cons, List.flatten_cons, specAttachmentSerialization,
      List.filterMap_cons]
    cases h : itemKeyString x with
    | none =>
      have hx : serializeItem x = [] := by rw [serializeItem_eq_spec, h]
      simpa [hx, specAttachmentSerialization] using ih
    | some s =>
      have hx : serializeItem x = specEncodeEntry s (readBytes x.value x.value_len) := by
        rw [serializeItem_eq_spec, h]
      simpa [hx, specAttachmentSerialization] using congrArg (specEncodeEntry s (readBytes x.value x.value_len) ++ ·) ih

theorem lastError_set (m : String) (h : hasInteriorNul m = false) (st : ThreadState) :
    (set_error m st).lastError = some m := by
  simp [set_error, cstringNew, h]

theorem nulFree_append {a b : String} (ha : hasInteriorNul a = false)
    (hb : hasInteriorNul b = false) : hasInteriorNul (a ++ b) = false := by
  rw [hasInteriorNul_append, ha, hb]
  rfl

/-- Error-channel discipline of the declare-shaped entry points: the
resulting thread state is independent of the incoming state (the slot is
cleared before real work and overwritten on failure), and the slot is
empty after the call exactly when the call returned a handle. -/
theorem declareOp_discipline (pm fm : String) (hpm : hasInteriorNul pm = false)
    (hfm : hasInteriorNul fm = false) (s : Option Nat) (k : CStr) (e : EngineOutcome Nat)
    (st st' : ThreadState) (hk : k.descNulFree) (he : e.errNulFree) :
    (declareOp pm fm s k e st).state = (declareOp pm fm s k e st').state ∧
    ((declareOp pm fm s k e st).state.lastError = none ↔
      (declareOp pm fm s k e st).ret.isSome = true) := by
  cases s with
  | none =>
    refine ⟨rfl, ?_⟩
    have hmsg : hasInteriorNul "Session pointer is null" = false := by decide
    simp [declareOp, set_error, cstringNew, hmsg]
  | some a =>
    cases k with
    | null =>
      refine ⟨rfl, ?_⟩
      have hmsg : hasInteriorNul "Key expression is null" = false := by decide
      simp [declareOp, set_error, cstringNew, hmsg]
    | invalid d =>
      have hk' : hasInteriorNul d = false := hk
      refine ⟨rfl, ?_⟩
      have hmsg : hasInteriorNul ("Invalid UTF-8 in key expression: " ++ d) = false :=
        nulFree_append (by decide) hk'
      simp [declareOp, set_error, cstringNew, hmsg]
    | valid key =>
      cases e with
      | ok addr => exact ⟨rfl, by simp [declareOp, clear_error, run_blocking]⟩
      | err m =>
        have he' : hasInteriorNul m = false := he
        refine ⟨rfl, ?_⟩
        have hmsg : hasInteriorNul (fm ++ m) = false := nulFree_append hfm he'
        simp [declareOp, run_blocking, set_error, cstringNew, hmsg]
      | panicked =>
        refine ⟨rfl, ?_⟩
        simp [declareOp, run_blocking, set_error, cstringNew, hpm]

/-- Error-channel discipline of the engine tail of `zenoh_open`, started
from a cleared slot. -/
theorem open_engine_discipline (cfg : ConfigChoice) (e : EngineOutcome Nat)
    (st st' : ThreadState) (he : e.errNulFree) :
    (zenoh_open_engine cfg e (clear_error st)).state =
      (zenoh_open_engine cfg e (clear_error st')).state ∧
    ((zenoh_open_engine cfg e (clear_error st)).state.lastError = none ↔
      (zenoh_open_engine cfg e (clear_error st)).ret.isSome = true) := by
  cases e with
  | ok addr => exact ⟨rfl, by simp [zenoh_open_engine, run_blocking, clear_error]⟩
  | err m =>
    have he' : hasInteriorNul m = false := he
    refine ⟨rfl, ?_⟩
    have hmsg : hasInteriorNul ("Failed to open session: " ++ m) = false :=
      nulFree_append (by decide) he'
    simp [zenoh_open_engine, run_blocking, set_error, cstringNew, hmsg]
  | panicked =>
    refine ⟨rfl, ?_⟩
    have hmsg : hasInteriorNul "Panic occurred in zenoh_open" = false := by decide
    simp [zenoh_open_engine, run_blocking, set_error, cstringNew, hmsg]

/-- Error-channel discipline of `zenoh_open`. -/
theorem open_discipline (config : CStr) (parse : String → Except String Unit)
    (e : EngineOutcome Nat) (st st' : ThreadState) (hc : config.descNulFree)
    (he : e.errNulFree)
    (hparse : ∀ s m, parse s = Except.error m → hasInteriorNul m = false) :
    (zenoh_open config parse e st).state = (zenoh_open config parse e st').state ∧
    ((zenoh_open config parse e st).state.lastError = none ↔
      (zenoh_open config parse e st).ret.isSome = true) := by
  cases config with
  | null =>
    simpa [zenoh_open] using open_engine_discipline ConfigChoice.defaultConfig e st st' he
  | invalid d =>
    have hd : hasInteriorNul d = false := hc
    refine ⟨rfl, ?_⟩
    have hmsg : hasInteriorNul ("Invalid UTF-8 in config: " ++ d) = false :=
      nulFree_append (by decide) hd
    simp [zenoh_open, set_error, cstringNew, hmsg]
  | valid s =>
    by_cases hemp : s.isEmpty = true
    · simpa [zenoh_open, hemp] using
        open_engine_discipline ConfigChoice.defaultConfig e st st' he
    · rw [Bool.not_eq_true] at hemp
      cases hp : parse s with
      | error m =>
        refine ⟨by simp [zenoh_open, hemp, hp, set_error], ?_⟩
        have hmsg : hasInteriorNul ("Config parse error: " ++ m) = false :=
          nulFree_append (by decide) (hparse s m hp)
        simp [zenoh_open, hemp, hp, set_error, cstringNew, hmsg]
      | ok u =>
        simpa [zenoh_open, hemp, hp] using
          open_engine_discipline (ConfigChoice.parsed s) e st st' he

/-- Error-channel discipline of `zenoh_publisher_put`. -/
theorem publisher_put_discipline (pub : Option Nat) (payload : Option (Nat → Nat))
    (len : Nat) (e : EngineOutcome Unit) (st st' : ThreadState) (he : e.errNulFree) :
    (zenoh_publisher_put pub payload len e st).state =
      (zenoh_publisher_put pub payload len e st').state ∧
    ((zenoh_publisher_put pub payload len e st).state.lastError = none ↔
      (zenoh_publisher_put pub payload len e st).code = ZenohError.Ok) := by
  cases pub with
  | none =>
    refine ⟨rfl, ?_⟩
    have hmsg : hasInteriorNul "Publisher pointer is null" = false := by decide
    simp [zenoh_publisher_put, set_error, cstringNew, hmsg]
  | some a =>
    by_cases hb : (payload.isNone && decide (0 < len)) = true
    · refine ⟨by simp [zenoh_publisher_put, hb, set_error], ?_⟩
      have hmsg : hasInteriorNul "Payload pointer is null but length > 0" = false := by decide
      simp [zenoh_publisher_put, hb, set_error, cstringNew, hmsg]
    · cases e with
      | ok u =>
        exact ⟨by simp [zenoh_publisher_put, hb, run_blocking, clear_error], by
          simp [zenoh_publisher_put, hb, clear_error, run_blocking]⟩
      | err m =>
        have he' : hasInteriorNul m = false := he
        refine ⟨by simp [zenoh_publisher_put, hb, run_blocking, set_error], ?_⟩
        have hmsg : hasInteriorNul ("Put failed: " ++ m) = false :=
          nulFree_append (by decide) he'
        simp [zenoh_publisher_put, hb, run_blocking, set_error, cstringNew, hmsg]
      | panicked =>
        refine ⟨by simp [zenoh_publisher_put, hb, run_blocking, set_error], ?_⟩
        have hmsg : hasInteriorNul "Panic occurred in zenoh_publisher_put" = false := by decide
        simp [zenoh_publisher_put, hb, run_blocking, set_error, cstringNew, hmsg]

/-- Error-channel discipline of `zenoh_publisher_put_with_encoding`. -/
theorem publisher_put_enc_discipline (pub : Option Nat) (payload : Option (Nat → Nat))
    (len : Nat) (enc : ZenohEncodingId) (e : EngineOutcome Unit) (st st' : ThreadState)
    (he : e.errNulFree) :
    (zenoh_publisher_put_with_encoding pub payload len enc e st).state =
      (zenoh_publisher_put_with_encoding pub payload len enc e st').state ∧
    ((zenoh_publisher_put_with_encoding pub payload len enc e st).state.lastError = none ↔
      (zenoh_publisher_put_with_encoding pub payload len enc e st).code = ZenohError.Ok) := by
  cases pub with
  | none =>
    refine ⟨rfl, ?_⟩
    have hmsg : hasInteriorNul "Publisher pointer is null" = false := by decide
    simp [zenoh_publisher_put_with_encoding, set_error, cstringNew, hmsg]
  | some a =>
    by_cases hb : (payload.isNone && decide (0 < len)) = true
    · refine ⟨by simp [zenoh_publisher_put_with_encoding, hb, set_error], ?_⟩
      have hmsg : hasInteriorNul "Payload pointer is null but length > 0" = false := by decide
      simp [zenoh_publisher_put_with_encoding, hb, set_error, cstringNew, hmsg]
    · cases e with
      | ok u =>
        exact ⟨by simp [zenoh_publisher_put_with_encoding, hb, run_blocking, clear_error], by
          simp [zenoh_publisher_put_with_encoding, hb, clear_error, run_blocking]⟩
      | err m =>
        have he' : hasInteriorNul m = false := he
        refine ⟨by simp [zenoh_publisher_put_with_encoding, hb, run_blocking, set_error], ?_⟩
        have hmsg : hasInteriorNul ("Put with encoding failed: " ++ m) = false :=
          nulFree_append (by decide) he'
        simp [zenoh_publisher_put_with_encoding, hb, run_blocking, set_error, cstringNew, hmsg]
      | panicked =>
        refine ⟨by simp [zenoh_publisher_put_with_encoding, hb, run_blocking, set_error], ?_⟩
        have hmsg :
            hasInteriorNul "Panic occurred in zenoh_publisher_put_with_encoding" = false := by
          decide
        simp [zenoh_publisher_put_with_encoding, hb, run_blocking, set_error, cstringNew, hmsg]

/-- Error-channel discipline of `zenoh_put`. -/
theorem put_discipline (s : Option Nat) (k : CStr) (payload : Option (Nat → Nat))
    (len : Nat) (e : EngineOutcome Unit) (st st' : ThreadState) (hk : k.descNulFree)
    (he : e.errNulFree) :
    (zenoh_put s k payload len e st).state = (zenoh_put s k payload len e st').state ∧
    ((zenoh_put s k payload len e st).state.lastError = none ↔
      (zenoh_put s k payload len e st).code = ZenohError.Ok) := by
  cases s with
  | none =>
    refine ⟨rfl, ?_⟩
    have hmsg : hasInteriorNul "Session pointer is null" = false := by decide
    simp [zenoh_put, set_error, cstringNew, hmsg]
  | some a =>
    cases k with
    | null =>
      refine ⟨rfl, ?_⟩
      have hmsg : hasInteriorNul "Key expression is null" = false := by decide
      simp [zenoh_put, set_error, cstringNew, hmsg]
    | invalid d =>
      have hd : hasInteriorNul d = false := hk
      refine ⟨rfl, ?_⟩
      have hmsg : hasInteriorNul ("Invalid UTF-8 in key expression: " ++ d) = false :=
        nulFree_append (by decide) hd
      simp [zenoh_put, set_error, cstringNew, hmsg]
    | valid key =>
      cases e with
      | ok u => exact ⟨rfl, by simp [zenoh_put, clear_error, run_blocking]⟩
      | err m =>
        have he' : hasInteriorNul m = false := he
        refine ⟨rfl, ?_⟩
        have hmsg : hasInteriorNul ("Put failed: " ++ m) = false :=
          nulFree_append (by decide) he'
        simp [zenoh_put, run_blocking, set_error, cstringNew, hmsg]
      | panicked =>
        refine ⟨rfl, ?_⟩
        have hmsg : hasInteriorNul "Panic occurred in zenoh_put" = false := by decide
        simp [zenoh_put, run_blocking, set_error, cstringNew, hmsg]

/-- Error-channel discipline of `zenoh_put_with_encoding`. -/
theorem put_enc_discipline (s : Option Nat) (k : CStr) (payload : Option (Nat → Nat))
    (len : Nat) (enc : ZenohEncodingId) (e : EngineOutcome Unit) (st st' : ThreadState)
    (hk : k.descNulFree) (he : e.errNulFree) :
    (zenoh_put_with_encoding s k payload len enc e st).state =
      (zenoh_put_with_encoding s k payload len enc e st').state ∧
    ((zenoh_put_with_encoding s k payload len enc e st).state.lastError = none ↔
      (zenoh_put_with_encoding s k payload len enc e st).code = ZenohError.Ok) := by
  cases s with
  | none =>
    refine ⟨rfl, ?_⟩
    have hmsg : hasInteriorNul "Session pointer is null" = false := by decide
    simp [zenoh_put_with_encoding, set_error, cstringNew, hmsg]
  | some a =>
    cases k with
    | null =>
      refine ⟨by simp [zenoh_put_with_encoding, set_error], ?_⟩
      have hmsg : hasInteriorNul "Key expression is null" = false := by decide
      simp [zenoh_put_with_encoding, set_error, cstringNew, hmsg]
    | invalid d =>
      have hd : hasInteriorNul d = false := hk
      by_cases hb : (payload.isNone && decide (0 < len)) = true
      · refine ⟨by simp [zenoh_put_with_encoding, hb, set_error], ?_⟩
        have hmsg : hasInteriorNul "Payload pointer is null but length > 0" = false := by decide
        simp [zenoh_put_with_encoding, hb, set_error, cstringNew, hmsg]
      · refine ⟨by simp [zenoh_put_with_encoding, hb, set_error], ?_⟩
        have hmsg : hasInteriorNul ("Invalid UTF-8 in key expression: " ++ d) = false :=
          nulFree_append (by decide) hd
        simp [zenoh_put_with_encoding, hb, set_error, cstringNew, hmsg]
    | valid key =>
      by_cases hb : (payload.isNone && decide (0 < len)) = true
      · refine ⟨by simp [zenoh_put_with_encoding, hb, set_error], ?_⟩
        have hmsg : hasInteriorNul "Payload pointer is null but length > 0" = false := by decide
        simp [zenoh_put_with_encoding, hb, set_error, cstringNew, hmsg]
      · cases e with
        | ok u =>
          exact ⟨by simp [zenoh_put_with_encoding, hb, run_blocking, clear_error], by
            simp [zenoh_put_with_encoding, hb, clear_error, run_blocking]⟩
        | err m =>
          have he' : hasInteriorNul m = false := he
          refine ⟨by simp [zenoh_put_with_encoding, hb, run_blocking, set_error], ?_⟩
          have hmsg : hasInteriorNul ("Put with encoding failed: " ++ m) = false :=
            nulFree_append (by decide) he'
          simp [zenoh_put_with_encoding, hb, run_blocking, set_error, cstringNew, hmsg]
        | panicked =>
          refine ⟨by simp [zenoh_put_with_encoding, hb, run_blocking, set_error], ?_⟩
          have hmsg : hasInteriorNul "Panic occurred in zenoh_put_with_encoding" = false := by
            decide
          simp [zenoh_put_with_encoding, hb, run_blocking, set_error, cstringNew, hmsg]

/-- Error-channel discipline of `zenoh_put_with_attachment`. -/
theorem put_att_discipline (s : Option Nat) (k : CStr) (payload : Option (Nat → Nat))
    (len : Nat) (items : Option (List CAttachmentItem)) (e : EngineOutcome Unit)
    (st st' : ThreadState) (hk : k.descNulFree) (he : e.errNulFree) :
    (zenoh_put_with_attachment s k payload len items e st).state =
      (zenoh_put_with_attachment s k payload len items e st').state ∧
    ((zenoh_put_with_attachment s k payload len items e st).state.lastError = none ↔
      (zenoh_put_with_attachment s k payload len items e st).code = ZenohError.Ok) := by
  cases s with
  | none =>
    refine ⟨rfl, ?_⟩
    have hmsg : hasInteriorNul "Session pointer is null" = false := by decide
    simp [zenoh_put_with_attachment, set_error, cstringNew, hmsg]
  | some a =>
    cases k with
    | null =>
      refine ⟨by simp [zenoh_put_with_attachment, set_error], ?_⟩
      have hmsg : hasInteriorNul "Key expression is null" = false := by decide
      simp [zenoh_put_with_attachment, set_error, cstringNew, hmsg]
    | invalid d =>
      have hd : hasInteriorNul d = false := hk
      by_cases hb : (payload.isNone && decide (0 < len)) = true
      · refine ⟨by simp [zenoh_put_with_attachment, hb, set_error], ?_⟩
        have hmsg : hasInteriorNul "Payload pointer is null but length > 0" = false := by decide
        simp [zenoh_put_with_attachment, hb, set_error, cstringNew, hmsg]
      · refine ⟨by simp [zenoh_put_with_attachment, hb, set_error], ?_⟩
        have hmsg : hasInteriorNul ("Invalid UTF-8 in key expression: " ++ d) = false :=
          nulFree_append (by decide) hd
        simp [zenoh_put_with_attachment, hb, set_error, cstringNew, hmsg]
    | valid key =>
      by_cases hb : (payload.isNone && decide (0 < len)) = true
      · refine ⟨by simp [zenoh_put_with_attachment, hb, set_error], ?_⟩
        have hmsg : hasInteriorNul "Payload pointer is null but length > 0" = false := by decide
        simp [zenoh_put_with_attachment, hb, set_error, cstringNew, hmsg]
      · cases e with
        | ok u =>
          exact ⟨by simp [zenoh_put_with_attachment, hb, run_blocking, clear_error], by
            simp [zenoh_put_with_attachment, hb, clear_error, run_blocking]⟩
        | err m =>
          have he' : hasInteriorNul m = false := he
          refine ⟨by simp [zenoh_put_with_attachment, hb, run_blocking, set_error], ?_⟩
          have hmsg : hasInteriorNul ("Put with attachment failed: " ++ m) = false :=
            nulFree_append (by decide) he'
          simp [zenoh_put_with_attachment, hb, run_blocking, set_error, cstringNew, hmsg]
        | panicked =>
          refine ⟨by simp [zenoh_put_with_attachment, hb, run_blocking, set_error], ?_⟩
          have hmsg : hasInteriorNul "Panic occurred in zenoh_put_with_attachment" = false := by
            decide
          simp [zenoh_put_with_attachment, hb, run_blocking, set_error, cstringNew, hmsg]

/-- Error-channel discipline of `zenoh_delete`. -/
theorem delete_discipline (s : Option Nat) (k : CStr) (e : EngineOutcome Unit)
    (st st' : ThreadState) (hk : k.descNulFree) (he : e.errNulFree) :
    (zenoh_delete s k e st).state = (zenoh_delete s k e st').state ∧
    ((zenoh_delete s k e st).state.lastError = none ↔
      (zenoh_delete s k e st).code = ZenohError.Ok) := by
  cases s with
  | none =>
    refine ⟨rfl, ?_⟩
    have hmsg : hasInteriorNul "Session pointer is null" = false := by decide
    simp [zenoh_delete, set_error, cstringNew, hmsg]
  | some a =>
    cases k with
    | null =>
      refine ⟨rfl, ?_⟩
      have hmsg : hasInteriorNul "Key expression is null" = false := by decide
      simp [zenoh_delete, set_error, cstringNew, hmsg]
    | invalid d =>
      have hd : hasInteriorNul d = false := hk
      refine ⟨rfl, ?_⟩
      have hmsg : hasInteriorNul ("Invalid UTF-8 in key expression: " ++ d) = false :=
        nulFree_append (by decide) hd
      simp [zenoh_delete, set_error, cstringNew, hmsg]
    | valid key =>
      cases e with
      | ok u => exact ⟨rfl, by simp [zenoh_delete, clear_error, run_blocking]⟩
      | err m =>
        have he' : hasInteriorNul m = false := he
        refine ⟨rfl, ?_⟩
        have hmsg : hasInteriorNul ("Delete failed: " ++ m) = false :=
          nulFree_append (by decide) he'
        simp [zenoh_delete, run_blocking, set_error, cstringNew, hmsg]
      | panicked =>
        refine ⟨rfl, ?_⟩
        have hmsg : hasInteriorNul "Panic occurred in zenoh_delete" = false := by decide
        simp [zenoh_delete, run_blocking, set_error, cstringNew, hmsg]

/-- Error-channel discipline of `zenoh_get`. -/
theorem get_discipline (s : Option Nat) (sel : CStr) (e : EngineOutcome Unit)
    (st st' : ThreadState) (hk : sel.descNulFree) (he : e.errNulFree) :
    (zenoh_get s sel e st).state = (zenoh_get s sel e st').state ∧
    ((zenoh_get s sel e st).state.lastError = none ↔
      (zenoh_get s sel e st).code = ZenohError.Ok) := by
  cases s with
  | none =>
    refine ⟨rfl, ?_⟩
    have hmsg : hasInteriorNul "Session pointer is null" = false := by decide
    simp [zenoh_get, set_error, cstringNew, hmsg]
  | some a =>
    cases sel with
    | null =>
      refine ⟨rfl, ?_⟩
      have hmsg : hasInteriorNul "Selector is null" = false := by decide
      simp [zenoh_get, set_error, cstringNew, hmsg]
    | invalid d =>
      have hd : hasInteriorNul d = false := hk
      refine ⟨rfl, ?_⟩
      have hmsg : hasInteriorNul ("Invalid UTF-8 in selector: " ++ d) = false :=
        nulFree_append (by decide) hd
      simp [zenoh_get, set_error, cstringNew, hmsg]
    | valid key =>
      cases e with
      | ok u => exact ⟨rfl, by simp [zenoh_get, clear_error, run_blocking]⟩
      | err m =>
        have he' : hasInteriorNul m = false := he
        refine ⟨rfl, ?_⟩
        have hmsg : hasInteriorNul ("Get query failed: " ++ m) = false :=
          nulFree_append (by decide) he'
        simp [zenoh_get, run_blocking, set_error, cstringNew, hmsg]
      | panicked =>
        refine ⟨rfl, ?_⟩
        have hmsg : hasInteriorNul "Panic occurred in zenoh_get" = false := by decide
        simp [zenoh_get, run_blocking, set_error, cstringNew, hmsg]

/-- Error-channel discipline of `zenoh_querier_get`. -/
theorem querier_get_discipline (q : Option Nat) (e : EngineOutcome Unit)
    (st st' : ThreadState) (he : e.errNulFree) :
    (zenoh_querier_get q e st).state = (zenoh_querier_get q e st').state ∧
    ((zenoh_querier_get q e st).state.lastError = none ↔
      (zenoh_querier_get q e st).code = ZenohError.Ok) := by
  cases q with
  | none =>
    refine ⟨rfl, ?_⟩
    have hmsg : hasInteriorNul "Querier pointer is null" = false := by decide
    simp [zenoh_querier_get, set_error, cstringNew, hmsg]
  | some a =>
    cases e with
    | ok u => exact ⟨rfl, by simp [zenoh_querier_get, clear_error, run_blocking]⟩
    | err m =>
      have he' : hasInteriorNul m = false := he
      refine ⟨rfl, ?_⟩
      have hmsg : hasInteriorNul ("Querier get failed: " ++ m) = false :=
        nulFree_append (by decide) he'
      simp [zenoh_querier_get, run_blocking, set_error, cstringNew, hmsg]
    | panicked =>
      refine ⟨rfl, ?_⟩
      have hmsg : hasInteriorNul "Panic occurred in zenoh_querier_get" = false := by decide
      simp [zenoh_querier_get, run_blocking, set_error, cstringNew, hmsg]

/-- Error-channel discipline of `zenoh_query_selector`. -/
theorem selector_discipline (q : Option Nat) (sel : CallOutcome String) (fresh : Nat)
    (st st' : ThreadState) :
    (zenoh_query_selector q sel fresh st).state =
      (zenoh_query_selector q sel fresh st').state ∧
    ((zenoh_query_selector q sel fresh st).state.lastError = none ↔
      (zenoh_query_selector q sel fresh st).ret.isSome = true) := by
  cases q with
  | none =>
    refine ⟨rfl, ?_⟩
    have hmsg : hasInteriorNul "Query pointer is null" = false := by decide
    simp [zenoh_query_selector, set_error, cstringNew, hmsg]
  | some a =>
    cases sel with
    | panicked =>
      refine ⟨rfl, ?_⟩
      have hmsg : hasInteriorNul "Panic occurred in zenoh_query_selector" = false := by decide
      simp [zenoh_query_selector, set_error, cstringNew, hmsg]
    | ret s =>
      cases hcs : cstringNew s with
      | some v =>
        exact ⟨by simp [zenoh_query_selector, hcs, clear_error], by
          simp [zenoh_query_selector, hcs, clear_error]⟩
      | none =>
        refine ⟨by simp [zenoh_query_selector, hcs, set_error], ?_⟩
        have hmsg : hasInteriorNul ("Invalid string: " ++ nulErrorDesc) = false := by decide
        simp [zenoh_query_selector, hcs, lastError_set _ hmsg]

/-- Error-channel discipline of `zenoh_session_zid`. -/
theorem zid_discipline (s : Option Nat) (zid : CallOutcome (List Nat)) (fresh : Nat)
    (st st' : ThreadState) :
    (zenoh_session_zid s zid fresh st).state = (zenoh_session_zid s zid fresh st').state ∧
    ((zenoh_session_zid s zid fresh st).state.lastError = none ↔
      (zenoh_session_zid s zid fresh st).ret.isSome = true) := by
  cases s with
  | none =>
    refine ⟨rfl, ?_⟩
    have hmsg : hasInteriorNul "Session pointer is null" = false := by decide
    simp [zenoh_session_zid, set_error, cstringNew, hmsg]
  | some a =>
    cases zid with
    | panicked =>
      refine ⟨rfl, ?_⟩
      have hmsg : hasInteriorNul "Panic occurred in zenoh_session_zid" = false := by decide
      simp [zenoh_session_zid, set_error, cstringNew, hmsg]
    | ret bytes =>
      cases hcs : cstringNew (zidHex bytes) with
      | some v =>
        exact ⟨by simp [zenoh_session_zid, hcs, clear_error], by
          simp [zenoh_session_zid, hcs, clear_error]⟩
      | none =>
        refine ⟨by simp [zenoh_session_zid, hcs, set_error], ?_⟩
        have hmsg : hasInteriorNul ("Failed to create ZID string: " ++ nulErrorDesc) = false := by
          decide
        simp [zenoh_session_zid, hcs, lastError_set _ hmsg]

/-- Error-channel discipline of `zenoh_query_reply`. -/
theorem reply_discipline (q : Option Nat) (k : CStr) (payload : Option (Nat → Nat))
    (len : Nat) (e : EngineOutcome Unit) (heap : Heap) (st st' : ThreadState)
    (hk : k.descNulFree) (he : e.errNulFree) :
    (zenoh_query_reply q k payload len e heap st).stateOf =
      (zenoh_query_reply q k payload len e heap st').stateOf ∧
    (∀ s2 c2 h2, zenoh_query_reply q k payload len e heap st =
        ReplyResult.returned s2 c2 h2 → (s2.lastError = none ↔ c2 = ZenohError.Ok)) := by
  cases q with
  | none =>
    refine ⟨rfl, ?_⟩
    intro s2 c2 h2 hh
    injection hh with e1 e2 e3
    subst e1; subst e2
    have hmsg : hasInteriorNul "Query pointer is null" = false := by decide
    simp [lastError_set _ hmsg]
  | some qa =>
    by_cases hn : k = CStr.null
    · subst hn
      refine ⟨by simp [zenoh_query_reply, set_error], ?_⟩
      intro s2 c2 h2 hh
      simp only [zenoh_query_reply, if_pos rfl] at hh
      injection hh with e1 e2 e3
      subst e1; subst e2
      have hmsg : hasInteriorNul "Key expression is null" = false := by decide
      simp [lastError_set _ hmsg]
    · by_cases hp : payload.isNone = true
      · refine ⟨by simp [zenoh_query_reply, hn, hp, set_error], ?_⟩
        intro s2 c2 h2 hh
        simp only [zenoh_query_reply, if_neg hn, hp, if_true] at hh
        injection hh with e1 e2 e3
        subst e1; subst e2
        have hmsg : hasInteriorNul "Payload pointer is null" = false := by decide
        simp [lastError_set _ hmsg]
      · by_cases hl : heap.isLive qa = true
        · cases k with
          | null => exact absurd rfl hn
          | invalid d =>
            have hd : hasInteriorNul d = false := hk
            have hmsg : hasInteriorNul ("Invalid UTF-8 in key expression: " ++ d) = false :=
              nulFree_append (by decide) hd
            refine ⟨by simp [zenoh_query_reply, hn, hp, hl, set_error], ?_⟩
            intro s2 c2 h2 hh
            simp only [zenoh_query_reply, if_neg hn, hp, Bool.false_eq_true, if_false, hl,
              if_true] at hh
            injection hh with e1 e2 e3
            subst e1; subst e2
            simp [lastError_set _ hmsg]
          | valid key =>
            cases e with
            | ok u =>
              refine ⟨by simp [zenoh_query_reply, hn, hp, hl, run_blocking, clear_error], ?_⟩
              intro s2 c2 h2 hh
              simp only [zenoh_query_reply, if_neg hn, hp, Bool.false_eq_true, if_false, hl,
                if_true, run_blocking] at hh
              injection hh with e1 e2 e3
              subst e1; subst e2
              simp [clear_error]
            | err m =>
              have he' : hasInteriorNul m = false := he
              have hmsg : hasInteriorNul ("Query reply failed: " ++ m) = false :=
                nulFree_append (by decide) he'
              refine ⟨by simp [zenoh_query_reply, hn, hp, hl, run_blocking, set_error], ?_⟩
              intro s2 c2 h2 hh
              simp only [zenoh_query_reply, if_neg hn, hp, Bool.false_eq_true, if_false, hl,
                if_true, run_blocking] at hh
              injection hh with e1 e2 e3
              subst e1; subst e2
              simp [lastError_set _ hmsg]
            | panicked =>
              have hmsg : hasInteriorNul "Panic occurred in zenoh_query_reply" = false := by
                decide
              refine ⟨by simp [zenoh_query_reply, hn, hp, hl, run_blocking, set_error], ?_⟩
              intro s2 c2 h2 hh
              simp only [zenoh_query_reply, if_neg hn, hp, Bool.false_eq_true, if_false, hl,
                if_true, run_blocking] at hh
              injection hh with e1 e2 e3
              subst e1; subst e2
              simp [lastError_set _ hmsg]
        · refine ⟨by simp [zenoh_query_reply, hn, hp, hl, ReplyResult.stateOf], ?_⟩
          intro s2 c2 h2 hh
          rw [Bool.not_eq_true] at hl
          simp [zenoh_query_reply, hn, hp, hl] at hh

/-- The destroy entry points never touch the thread-local error slot: any
normal return carries the incoming thread state unchanged. -/
theorem destroyOp_state_preserved (p : Option Nat) (heap : Heap) (st : ThreadState) :
    destroyOp p heap st = DestroyResult.fault ∨
    (∃ h2, destroyOp p heap st = DestroyResult.returned h2 st) := by
  cases p with
  | none => exact Or.inr ⟨heap, rfl⟩
  | some a =>
    by_cases hl : heap.isLive a = true
    · exact Or.inr ⟨heap.free a, by simp [destroyOp, hl]⟩
    · rw [Bool.not_eq_true] at hl
      exact Or.inl (by simp [destroyOp, hl])

-- ===================== claim theorems =====================

/-- C2 (counterexample): not every boundary entry point clears the
calling thread's diagnostic slot — the destroy operations do not.  After a
failing `zenoh_publisher_put` (NULL publisher) stores its message, a
subsequent `zenoh_close` on this thread returns normally (a successful
boundary call) yet leaves the old message in the slot, so
`zenoh_last_error` returns that stale message instead of NULL even though
the most recent boundary call on the thread succeeded. -/
theorem error_channel_destroy_counterexample :
    (zenoh_publisher_put none none 0 (EngineOutcome.ok ()) ⟨none⟩).state =
      ⟨some "Publisher pointer is null"⟩ ∧
    zenoh_close none ⟨[]⟩ ⟨some "Publisher pointer is null"⟩ =
      DestroyResult.returned ⟨[]⟩ ⟨some "Publisher pointer is null"⟩ ∧
    zenoh_last_error ⟨some "Publisher pointer is null"⟩ =
      some "Publisher pointer is null" := by
  refine ⟨by decide, rfl, rfl⟩

/-- C2 (amended): every value-returning boundary entry point (open,
declare, put, get, delete, reply, selector, zid) clears the calling
thread's diagnostic slot before doing real work and on any failure path
stores exactly one message into it, overwriting — never appending to —
any previous content (formally: the resulting slot is independent of the
incoming state, and it is empty exactly when the call succeeded, given
that the engine/decoder diagnostic texts are NUL-free); the destroy
operations (`zenoh_close`, the undeclares, `zenoh_query_drop`,
`zenoh_free_string`) neither clear nor set the slot; and
`zenoh_last_error` returns exactly the slot's content, i.e. the message of
the most recent failing slot-managing boundary call on the thread, or
NULL if that call succeeded. -/
theorem error_channel_amended :
    (∀ st, zenoh_last_error st = st.lastError) ∧
    (∀ p heap st, zenoh_close p heap st = DestroyResult.fault ∨
        ∃ h2, zenoh_close p heap st = DestroyResult.returned h2 st) ∧
    (∀ p heap st, zenoh_undeclare_publisher p heap st = DestroyResult.fault ∨
        ∃ h2, zenoh_undeclare_publisher p heap st = DestroyResult.returned h2 st) ∧
    (∀ p heap st, zenoh_undeclare_subscriber p heap st = DestroyResult.fault ∨
        ∃ h2, zenoh_undeclare_subscriber p heap st = DestroyResult.returned h2 st) ∧
    (∀ p heap st, zenoh_undeclare_queryable p heap st = DestroyResult.fault ∨
        ∃ h2, zenoh_undeclare_queryable p heap st = DestroyResult.returned h2 st) ∧
    (∀ p heap st, zenoh_undeclare_querier p heap st = DestroyResult.fault ∨
        ∃ h2, zenoh_undeclare_querier p heap st = DestroyResult.returned h2 st) ∧
    (∀ p heap st, zenoh_liveliness_undeclare_token p heap st = DestroyResult.fault ∨
        ∃ h2, zenoh_liveliness_undeclare_token p heap st = DestroyResult.returned h2 st) ∧
    (∀ p heap st, zenoh_query_drop p heap st = DestroyResult.fault ∨
        ∃ h2, zenoh_query_drop p heap st = DestroyResult.returned h2 st) ∧
    (∀ p heap st, zenoh_free_string p heap st = DestroyResult.fault ∨
        ∃ h2, zenoh_free_string p heap st = DestroyResult.returned h2 st) ∧
    (∀ config parse e st st', CStr.descNulFree config → EngineOutcome.errNulFree e →
        (∀ s m, parse s = Except.error m → hasInteriorNul m = false) →
        (zenoh_open config parse e st).state = (zenoh_open config parse e st').state ∧
        ((zenoh_open config parse e st).state.lastError = none ↔
          (zenoh_open config parse e st).ret.isSome = true)) ∧
    (∀ s k e st st', CStr.descNulFree k → EngineOutcome.errNulFree e →
        (zenoh_declare_publisher s k e st).state = (zenoh_declare_publisher s k e st').state ∧
        ((zenoh_declare_publisher s k e st).state.lastError = none ↔
          (zenoh_declare_publisher s k e st).ret.isSome = true)) ∧
    (∀ s k e st st', CStr.descNulFree k → EngineOutcome.errNulFree e →
        (zenoh_declare_subscriber s k e st).state = (zenoh_declare_subscriber s k e st').state ∧
        ((zenoh_declare_subscriber s k e st).state.lastError = none ↔
          (zenoh_declare_subscriber s k e st).ret.isSome = true)) ∧
    (∀ s k e st st', CStr.descNulFree k → EngineOutcome.errNulFree e →
        (zenoh_declare_queryable s k e st).state = (zenoh_declare_queryable s k e st').state ∧
        ((zenoh_declare_queryable s k e st).state.lastError = none ↔
          (zenoh_declare_queryable s k e st).ret.isSome = true)) ∧
    (∀ s k e st st', CStr.descNulFree k → EngineOutcome.errNulFree e →
        (zenoh_declare_querier s k e st).state = (zenoh_declare_querier s k e st').state ∧
        ((zenoh_declare_querier s k e st).state.lastError = none ↔
          (zenoh_declare_querier s k e st).ret.isSome = true)) ∧
    (∀ s k e st st', CStr.descNulFree k → EngineOutcome.errNulFree e →
        (zenoh_liveliness_declare_token s k e st).state =
          (zenoh_liveliness_declare_token s k e st').state ∧
        ((zenoh_liveliness_declare_token s k e st).state.lastError = none ↔
          (zenoh_liveliness_declare_token s k e st).ret.isSome = true)) ∧
    (∀ s k e st st', CStr.descNulFree k → EngineOutcome.errNulFree e →
        (zenoh_liveliness_declare_subscriber s k e st).state =
          (zenoh_liveliness_declare_subscriber s k e st').state ∧
        ((zenoh_liveliness_declare_subscriber s k e st).state.lastError = none ↔
          (zenoh_liveliness_declare_subscriber s k e st).ret.isSome = true)) ∧
    (∀ q sel fresh st st',
        (zenoh_query_selector q sel fresh st).state =
          (zenoh_query_selector q sel fresh st').state ∧
        ((zenoh_query_selector q sel fresh st).state.lastError = none ↔
          (zenoh_query_selector q sel fresh st).ret.isSome = true)) ∧
    (∀ s zid fresh st st',
        (zenoh_session_zid s zid fresh st).state = (zenoh_session_zid s zid fresh st').state ∧
        ((zenoh_session_zid s zid fresh st).state.lastError = none ↔
          (zenoh_session_zid s zid fresh st).ret.isSome = true)) ∧
    (∀ pub payload len e st st', EngineOutcome.errNulFree e →
        (zenoh_publisher_put pub payload len e st).state =
          (zenoh_publisher_put pub payload len e st').state ∧
        ((zenoh_publisher_put pub payload len e st).state.lastError = none ↔
          (zenoh_publisher_put pub payload len e st).code = ZenohError.Ok)) ∧
    (∀ pub payload len enc e st st', EngineOutcome.errNulFree e →
        (zenoh_publisher_put_with_encoding pub payload len enc e st).state =
          (zenoh_publisher_put_with_encoding pub payload len enc e st').state ∧
        ((zenoh_publisher_put_with_encoding pub payload len enc e st).state.lastError = none ↔
          (zenoh_publisher_put_with_encoding pub payload len enc e st).code = ZenohError.Ok)) ∧
    (∀ s k payload len e st st', CStr.descNulFree k → EngineOutcome.errNulFree e →
        (zenoh_put s k payload len e st).state = (zenoh_put s k payload len e st').state ∧
        ((zenoh_put s k payload len e st).state.lastError = none ↔
          (zenoh_put s k payload len e st).code = ZenohError.Ok)) ∧
    (∀ s k payload len enc e st st', CStr.descNulFree k → EngineOutcome.errNulFree e →
        (zenoh_put_with_encoding s k payload len enc e st).state =
          (zenoh_put_with_encoding s k payload len enc e st').state ∧
        ((zenoh_put_with_encoding s k payload len enc e st).state.lastError = none ↔
          (zenoh_put_with_encoding s k payload len enc e st).code = ZenohError.Ok)) ∧
    (∀ s k payload len items e st st', CStr.descNulFree k → EngineOutcome.errNulFree e →
        (zenoh_put_with_attachment s k payload len items e st).state =
          (zenoh_put_with_attachment s k payload len items e st').state ∧
        ((zenoh_put_with_attachment s k payload len items e st).state.lastError = none ↔
          (zenoh_put_with_attachment s k payload len items e st).code = ZenohError.Ok)) ∧
    (∀ s k e st st', CStr.descNulFree k → EngineOutcome.errNulFree e →
        (zenoh_delete s k e st).state = (zenoh_delete s k e st').state ∧
        ((zenoh_delete s k e st).state.lastError = none ↔
          (zenoh_delete s k e st).code = ZenohError.Ok)) ∧
    (∀ s sel e st st', CStr.descNulFree sel → EngineOutcome.errNulFree e →
        (zenoh_get s sel e st).state = (zenoh_get s sel e st').state ∧
        ((zenoh_get s sel e st).state.lastError = none ↔
          (zenoh_get s sel e st).code = ZenohError.Ok)) ∧
    (∀ q e st st', EngineOutcome.errNulFree e →
        (zenoh_querier_get q e st).state = (zenoh_querier_get q e st').state ∧
        ((zenoh_querier_get q e st).state.lastError = none ↔
          (zenoh_querier_get q e st).code = ZenohError.Ok)) ∧
    (∀ q k payload len e heap st st', CStr.descNulFree k → EngineOutcome.errNulFree e →
        (zenoh_query_reply q k payload len e heap st).stateOf =
          (zenoh_query_reply q k payload len e heap st').stateOf ∧
        (∀ s2 c2 h2, zenoh_query_reply q k payload len e heap st =
            ReplyResult.returned s2 c2 h2 → (s2.lastError = none ↔ c2 = ZenohError.Ok))) := by
  refine ⟨fun _ => rfl,
    destroyOp_state_preserved, destroyOp_state_preserved, destroyOp_state_preserved,
    destroyOp_state_preserved, destroyOp_state_preserved, destroyOp_state_preserved,
    destroyOp_state_preserved, destroyOp_state_preserved,
    fun config parse e st st' hc he hp => open_discipline config parse e st st' hc he hp,
    fun s k e st st' hk he =>
      declareOp_discipline _ _ (by decide) (by decide) s k e st st' hk he,
    fun s k e st st' hk he =>
      declareOp_discipline _ _ (by decide) (by decide) s k e st st' hk he,
    fun s k e st st' hk he =>
      declareOp_discipline _ _ (by decide) (by decide) s k e st st' hk he,
    fun s k e st st' hk he =>
      declareOp_discipline _ _ (by decide) (by decide) s k e st st' hk he,
    fun s k e st st' hk he =>
      declareOp_discipline _ _ (by decide) (by decide) s k e st st' hk he,
    fun s k e st st' hk he =>
      declareOp_discipline _ _ (by decide) (by decide) s k e st st' hk he,
    selector_discipline, zid_discipline,
    fun pub payload len e st st' he => publisher_put_discipline pub payload len e st st' he,
    fun pub payload len enc e st st' he =>
      publisher_put_enc_discipline pub payload len enc e st st' he,
    fun s k payload len e st st' hk he => put_discipline s k payload len e st st' hk he,
    fun s k payload len enc e st st' hk he =>
      put_enc_discipline s k payload len enc e st st' hk he,
    fun s k payload len items e st st' hk he =>
      put_att_discipline s k payload len items e st st' hk he,
    fun s k e st st' hk he => delete_discipline s k e st st' hk he,
    fun s sel e st st' hk he => get_discipline s sel e st st' hk he,
    fun q e st st' he => querier_get_discipline q e st st' he,
    fun q k payload len e heap st st' hk he =>
      reply_discipline q k payload len e heap st st' hk he⟩

/-- C2 (witness): the amended error-channel discipline applied at concrete
inputs (a failing declare with a NUL-free engine message, and a successful
publisher put). -/
theorem error_channel_amended_witness :
    ((zenoh_declare_publisher (some 1) (CStr.valid "demo/test") (EngineOutcome.err "boom")
        ⟨some "old"⟩).state.lastError = none ↔
      (zenoh_declare_publisher (some 1) (CStr.valid "demo/test") (EngineOutcome.err "boom")
        ⟨some "old"⟩).ret.isSome = true) ∧
    ((zenoh_publisher_put (some 1) (some (fun _ => 0)) 0 (EngineOutcome.ok ())
        ⟨some "old"⟩).state.lastError = none ↔
      (zenoh_publisher_put (some 1) (some (fun _ => 0)) 0 (EngineOutcome.ok ())
        ⟨some "old"⟩).code = ZenohError.Ok) :=
  ⟨(error_channel_amended.2.2.2.2.2.2.2.2.2.2.1 (some 1) (CStr.valid "demo/test")
      (EngineOutcome.err "boom") ⟨some "old"⟩ ⟨none⟩ trivial
      (by decide : hasInteriorNul "boom" = false)).2,
   (error_channel_amended.2.2.2.2.2.2.2.2.2.2.2.2.2.2.2.2.2.2.1 (some 1) (some (fun _ => 0)) 0
      (EngineOutcome.ok ()) ⟨some "old"⟩ ⟨none⟩ trivial).2⟩

/-- C5 (counterexample): the round trip fails for
`ZenohEncodingId.Empty`: `id_to_encoding` maps it to the engine's default
encoding, whose textual form `"zenoh/bytes"` is not recognized by
`encoding_to_id`, so it comes back as `AppOctetStream`, not `Empty`. -/
theorem encoding_empty_roundtrip_counterexample :
    encoding_to_id (id_to_encoding ZenohEncodingId.Empty) = ZenohEncodingId.AppOctetStream ∧
    encoding_to_id (id_to_encoding ZenohEncodingId.Empty) ≠ ZenohEncodingId.Empty := by
  decide

/-- C5 (amended): every `ZenohEncodingId` other than `Empty` round-trips
through `id_to_encoding` and back through `encoding_to_id` to itself;
`Empty` maps through the engine's default encoding to the generic
`AppOctetStream` fallback; and any internal encoding whose string is not
one of the recognized identifiers maps deterministically to
`AppOctetStream`, never to an error. -/
theorem encoding_roundtrip_amended :
    (∀ id : ZenohEncodingId, id ≠ ZenohEncodingId.Empty →
        encoding_to_id (id_to_encoding id) = id) ∧
    encoding_to_id (id_to_encoding ZenohEncodingId.Empty) = ZenohEncodingId.AppOctetStream ∧
    (∀ e : ZEncoding, e.display ∉ recognizedEncodings →
        encoding_to_id e = ZenohEncodingId.AppOctetStream) := by
  refine ⟨?_, by decide, ?_⟩
  · intro id h
    cases id <;> first | exact absurd rfl h | decide
  · intro e h
    simp only [recognizedEncodings, List.mem_cons, List.not_mem_nil, or_false, not_or] at h
    obtain ⟨h1, h2, h3, h4, h5, h6, h7, h8, h9, h10, h11, h12, h13⟩ := h
    simp [encoding_to_id, h1, h2, h3, h4, h5, h6, h7, h8, h9, h10, h11, h12, h13]

/-- C5 (witness): the amended theorem applied at `TextPlain` and at the
unrecognized encoding string `"video/raw"`. -/
theorem encoding_roundtrip_amended_witness :
    encoding_to_id (id_to_encoding ZenohEncodingId.TextPlain) = ZenohEncodingId.TextPlain ∧
    encoding_to_id ⟨"video/raw"⟩ = ZenohEncodingId.AppOctetStream :=
  ⟨encoding_roundtrip_amended.1 ZenohEncodingId.TextPlain (by decide),
   encoding_roundtrip_amended.2.2 ⟨"video/raw"⟩ (by decide)⟩

/-- C3 (counterexample): calling a destroy operation twice on the same
handle is not a safe no-op.  With one live allocation at address 1, the
first `zenoh_close` returns normally and reclaims it, but the second
`zenoh_close` on the same handle applies `Box::from_raw` to an address
that is no longer a live allocation — undefined behavior (double free),
modelled as `fault` — instead of returning normally. -/
theorem double_destroy_counterexample :
    zenoh_close (some 1) ⟨[1]⟩ ⟨none⟩ = DestroyResult.returned ⟨[]⟩ ⟨none⟩ ∧
    zenoh_close (some 1) ⟨[]⟩ ⟨none⟩ = DestroyResult.fault := by
  decide

/-- C3 (amended): calling any undeclare/close/free operation with a NULL
pointer is a safe no-op that returns normally, any number of times; the
first destroy of a live handle returns normally; but a second destroy of
the same handle reclaims an already-freed address, which is undefined
behavior (a documented caller obligation), not a guaranteed no-op. -/
theorem destroy_null_noop_amended :
    (∀ heap st, zenoh_close none heap st = DestroyResult.returned heap st) ∧
    (∀ heap st, zenoh_undeclare_publisher none heap st = DestroyResult.returned heap st) ∧
    (∀ heap st, zenoh_undeclare_subscriber none heap st = DestroyResult.returned heap st) ∧
    (∀ heap st, zenoh_undeclare_queryable none heap st = DestroyResult.returned heap st) ∧
    (∀ heap st, zenoh_undeclare_querier none heap st = DestroyResult.returned heap st) ∧
    (∀ heap st, zenoh_liveliness_undeclare_token none heap st = DestroyResult.returned heap st) ∧
    (∀ heap st, zenoh_query_drop none heap st = DestroyResult.returned heap st) ∧
    (∀ heap st, zenoh_free_string none heap st = DestroyResult.returned heap st) ∧
    (∀ a st, zenoh_close (some a) ⟨[a]⟩ st = DestroyResult.returned ⟨[]⟩ st) ∧
    (∀ a st, zenoh_close (some a) ⟨[]⟩ st = DestroyResult.fault) := by
  refine ⟨fun _ _ => rfl, fun _ _ => rfl, fun _ _ => rfl, fun _ _ => rfl, fun _ _ => rfl,
    fun _ _ => rfl, fun _ _ => rfl, fun _ _ => rfl, ?_, ?_⟩
  · intro a st
    simp [zenoh_close, destroyOp, isLive_singleton, free_singleton]
  · intro a st
    simp [zenoh_close, destroyOp, Heap.isLive]

/-- C10: `zenoh_query_reply` reclaims the query wrapper with
`Box::from_raw` as soon as the three pointer arguments pass their NULL
checks, before the key expression's UTF-8 is validated and before the
reply is attempted.  Consequently: a NULL-pointer failure leaves the heap
unchanged, but an invalid-key-expression failure and a reply failure both
return with the query already freed; passing the handle afterwards to
`zenoh_query_drop`, or retrying the reply, hits an already-freed address
(`fault`), so the failing call is not atomic. -/
theorem query_reply_consumes_handle :
    (∀ k p len e heap st,
        zenoh_query_reply none k p len e heap st =
          ReplyResult.returned (set_error "Query pointer is null" (clear_error st))
            ZenohError.NullPointer heap) ∧
    (∀ q k len e heap st,
        zenoh_query_reply (some q) (CStr.valid k) none len e heap st =
          ReplyResult.returned (set_error "Payload pointer is null" (clear_error st))
            ZenohError.NullPointer heap) ∧
    (∀ q d mem len e st,
        zenoh_query_reply (some q) (CStr.invalid d) (some mem) len e ⟨[q]⟩ st =
          ReplyResult.returned
            (set_error ("Invalid UTF-8 in key expression: " ++ d) (clear_error st))
            ZenohError.InvalidKeyExpr ⟨[]⟩) ∧
    (∀ q k mem len m st,
        zenoh_query_reply (some q) (CStr.valid k) (some mem) len (EngineOutcome.err m) ⟨[q]⟩ st =
          ReplyResult.returned
            (set_error ("Query reply failed: " ++ m) (clear_error st))
            ZenohError.Unknown ⟨[]⟩) ∧
    (∀ q st, zenoh_query_drop (some q) ⟨[]⟩ st = DestroyResult.fault) ∧
    (∀ q k mem len e st,
        zenoh_query_reply (some q) (CStr.valid k) (some mem) len e ⟨[]⟩ st =
          ReplyResult.fault) := by
  refine ⟨?_, ?_, ?_, ?_, ?_, ?_⟩
  · intro k p len e heap st
    simp [zenoh_query_reply]
  · intro q k len e heap st
    simp [zenoh_query_reply]
  · intro q d mem len e st
    simp [zenoh_query_reply, isLive_singleton, free_singleton]
  · intro q k mem len m st
    simp [zenoh_query_reply, isLive_singleton, free_singleton, run_blocking]
  · intro q st
    simp [zenoh_query_drop, destroyOp, Heap.isLive]
  · intro q k mem len e st
    simp [zenoh_query_reply, Heap.isLive]

/-- C1: every boundary entry point is wrapped in `panic::catch_unwind`.
When an internal fault is raised while the body runs (after the pointer
and UTF-8 checks have passed, so the body actually reaches its engine
call), every pointer-returning operation returns NULL and stores the
error-channel message "Panic occurred in …", and every code-returning
operation returns the dedicated internal-fault code `Panic`, whose
discriminant 254 is distinct from the discriminant of every other status
code. -/
theorem panic_guard_boundary :
    (∀ parse st, (zenoh_open CStr.null parse EngineOutcome.panicked st).ret = none ∧
        (zenoh_open CStr.null parse EngineOutcome.panicked st).state.lastError =
          some "Panic occurred in zenoh_open") ∧
    (∀ a k st, (zenoh_declare_publisher (some a) (CStr.valid k) EngineOutcome.panicked st).ret = none ∧
        (zenoh_declare_publisher (some a) (CStr.valid k) EngineOutcome.panicked st).state.lastError =
          some "Panic occurred in zenoh_declare_publisher") ∧
    (∀ a k st, (zenoh_declare_subscriber (some a) (CStr.valid k) EngineOutcome.panicked st).ret = none ∧
        (zenoh_declare_subscriber (some a) (CStr.valid k) EngineOutcome.panicked st).state.lastError =
          some "Panic occurred in zenoh_declare_subscriber") ∧
    (∀ a k st, (zenoh_declare_queryable (some a) (CStr.valid k) EngineOutcome.panicked st).ret = none ∧
        (zenoh_declare_queryable (some a) (CStr.valid k) EngineOutcome.panicked st).state.lastError =
          some "Panic occurred in zenoh_declare_queryable") ∧
    (∀ a k st, (zenoh_declare_querier (some a) (CStr.valid k) EngineOutcome.panicked st).ret = none ∧
        (zenoh_declare_querier (some a) (CStr.valid k) EngineOutcome.panicked st).state.lastError =
          some "Panic occurred in zenoh_declare_querier") ∧
    (∀ a k st, (zenoh_liveliness_declare_token (some a) (CStr.valid k) EngineOutcome.panicked st).ret = none ∧
        (zenoh_liveliness_declare_token (some a) (CStr.valid k) EngineOutcome.panicked st).state.lastError =
          some "Panic occurred in zenoh_liveliness_declare_token") ∧
    (∀ a k st, (zenoh_liveliness_declare_subscriber (some a) (CStr.valid k) EngineOutcome.panicked st).ret = none ∧
        (zenoh_liveliness_declare_subscriber (some a) (CStr.valid k) EngineOutcome.panicked st).state.lastError =
          some "Panic occurred in zenoh_liveliness_declare_subscriber") ∧
    (∀ a fresh st, (zenoh_query_selector (some a) CallOutcome.panicked fresh st).ret = none ∧
        (zenoh_query_selector (some a) CallOutcome.panicked fresh st).state.lastError =
          some "Panic occurred in zenoh_query_selector") ∧
    (∀ a fresh st, (zenoh_session_zid (some a) CallOutcome.panicked fresh st).ret = none ∧
        (zenoh_session_zid (some a) CallOutcome.panicked fresh st).state.lastError =
          some "Panic occurred in zenoh_session_zid") ∧
    (∀ a mem len st,
        (zenoh_publisher_put (some a) (some mem) len EngineOutcome.panicked st).code =
          ZenohError.Panic) ∧
    (∀ a mem len enc st,
        (zenoh_publisher_put_with_encoding (some a) (some mem) len enc EngineOutcome.panicked st).code =
          ZenohError.Panic) ∧
    (∀ a k mem len st,
        (zenoh_put (some a) (CStr.valid k) (some mem) len EngineOutcome.panicked st).code =
          ZenohError.Panic) ∧
    (∀ a k mem len enc st,
        (zenoh_put_with_encoding (some a) (CStr.valid k) (some mem) len enc EngineOutcome.panicked st).code =
          ZenohError.Panic) ∧
    (∀ a k mem len items st,
        (zenoh_put_with_attachment (some a) (CStr.valid k) (some mem) len items EngineOutcome.panicked st).code =
          ZenohError.Panic) ∧
    (∀ a k st, (zenoh_delete (some a) (CStr.valid k) EngineOutcome.panicked st).code =
        ZenohError.Panic) ∧
    (∀ a k st, (zenoh_get (some a) (CStr.valid k) EngineOutcome.panicked st).code =
        ZenohError.Panic) ∧
    (∀ a st, (zenoh_querier_get (some a) EngineOutcome.panicked st).code = ZenohError.Panic) ∧
    (∀ q k mem len st,
        zenoh_query_reply (some q) (CStr.valid k) (some mem) len EngineOutcome.panicked ⟨[q]⟩ st =
          ReplyResult.returned ⟨some "Panic occurred in zenoh_query_reply"⟩
            ZenohError.Panic ⟨[]⟩) ∧
    ZenohError.Panic.code = 254 ∧
    (∀ er : ZenohError, er ≠ ZenohError.Panic → er.code ≠ 254) := by
  refine ⟨?_, ?_, ?_, ?_, ?_, ?_, ?_, ?_, ?_, ?_, ?_, ?_, ?_, ?_, ?_, ?_, ?_, ?_, by decide, ?_⟩
  · intro parse st
    refine ⟨rfl, ?_⟩
    simp [zenoh_open, zenoh_open_engine, run_blocking, set_error, clear_error, cstringNew]
    decide
  · intro a k st
    refine ⟨rfl, ?_⟩
    simp [zenoh_declare_publisher, declareOp, run_blocking, set_error, clear_error, cstringNew]
    decide
  · intro a k st
    refine ⟨rfl, ?_⟩
    simp [zenoh_declare_subscriber, declareOp, run_blocking, set_error, clear_error, cstringNew]
    decide
  · intro a k st
    refine ⟨rfl, ?_⟩
    simp [zenoh_declare_queryable, declareOp, run_blocking, set_error, clear_error, cstringNew]
    decide
  · intro a k st
    refine ⟨rfl, ?_⟩
    simp [zenoh_declare_querier, declareOp, run_blocking, set_error, clear_error, cstringNew]
    decide
  · intro a k st
    refine ⟨rfl, ?_⟩
    simp [zenoh_liveliness_declare_token, declareOp, run_blocking, set_error, clear_error,
      cstringNew]
    decide
  · intro a k st
    refine ⟨rfl, ?_⟩
    simp [zenoh_liveliness_declare_subscriber, declareOp, run_blocking, set_error,
      clear_error, cstringNew]
    decide
  · intro a fresh st
    refine ⟨rfl, ?_⟩
    simp [zenoh_query_selector, set_error, clear_error, cstringNew]
    decide
  · intro a fresh st
    refine ⟨rfl, ?_⟩
    simp [zenoh_session_zid, set_error, clear_error, cstringNew]
    decide
  · intro a mem len st
    simp [zenoh_publisher_put, run_blocking]
  · intro a mem len enc st
    simp [zenoh_publisher_put_with_encoding, run_blocking]
  · intro a k mem len st
    simp [zenoh_put, run_blocking]
  · intro a k mem len enc st
    simp [zenoh_put_with_encoding, run_blocking]
  · intro a k mem len items st
    simp [zenoh_put_with_attachment, run_blocking]
  · intro a k st
    simp [zenoh_delete, run_blocking]
  · intro a k st
    simp [zenoh_get, run_blocking]
  · intro a st
    simp [zenoh_querier_get, run_blocking]
  · intro q k mem len st
    simp [zenoh_query_reply, isLive_singleton, free_singleton, run_blocking, set_error,
      clear_error, cstringNew]
    decide
  · intro er h
    cases er <;> simp_all [ZenohError.code]

/-- C1 (witness): the panic-guard theorem applied at concrete inputs, and
the distinctness conjunct discharged at the ordinary failure code
`PutFailed`. -/
theorem panic_guard_boundary_witness :
    (zenoh_open CStr.null (fun _ => Except.ok ()) EngineOutcome.panicked ⟨none⟩).ret = none ∧
    (zenoh_publisher_put (some 1) (some (fun _ => 0)) 0 EngineOutcome.panicked ⟨none⟩).code =
      ZenohError.Panic ∧
    ZenohError.PutFailed.code ≠ 254 :=
  ⟨(panic_guard_boundary.1 (fun _ => Except.ok ()) ⟨none⟩).1,
   panic_guard_boundary.2.2.2.2.2.2.2.2.2.1 1 (fun _ => 0) 0 ⟨none⟩,
   panic_guard_boundary.2.2.2.2.2.2.2.2.2.2.2.2.2.2.2.2.2.2.2 ZenohError.PutFailed
     (by decide)⟩

/-- C4: `zenoh_publisher_put` returns `NullPointer` exactly when the
publisher handle is NULL or the payload pointer is NULL with nonzero
length; a zero-length payload (NULL or not) is accepted and handed to the
engine as the empty byte buffer; an engine send failure yields
`PutFailed`; otherwise (engine success) the call returns `Ok`. -/
theorem publisher_put_codes :
    (∀ pub payload len eng st,
        ((zenoh_publisher_put pub payload len eng st).code = ZenohError.NullPointer ↔
          (pub = none ∨ (payload = none ∧ 0 < len)))) ∧
    (∀ a mem len eng st,
        (zenoh_publisher_put (some a) (some mem) len eng st).sent =
          some (readBytes (some mem) len)) ∧
    (∀ a eng st, (zenoh_publisher_put (some a) none 0 eng st).sent = some []) ∧
    (∀ a mem eng st, (zenoh_publisher_put (some a) (some mem) 0 eng st).sent = some []) ∧
    (∀ a mem len m st,
        (zenoh_publisher_put (some a) (some mem) len (EngineOutcome.err m) st).code =
          ZenohError.PutFailed) ∧
    (∀ a m st,
        (zenoh_publisher_put (some a) none 0 (EngineOutcome.err m) st).code =
          ZenohError.PutFailed) ∧
    (∀ a mem len st,
        (zenoh_publisher_put (some a) (some mem) len (EngineOutcome.ok ()) st).code =
          ZenohError.Ok) ∧
    (∀ a st, (zenoh_publisher_put (some a) none 0 (EngineOutcome.ok ()) st).code =
        ZenohError.Ok) := by
  refine ⟨?_, ?_, ?_, ?_, ?_, ?_, ?_, ?_⟩
  · intro pub payload len eng st
    cases pub with
    | none => simp [zenoh_publisher_put]
    | some a =>
      cases payload with
      | none =>
        by_cases hl : 0 < len
        · simp [zenoh_publisher_put, hl]
        · have h0 : len = 0 := Nat.eq_zero_of_not_pos hl
          subst h0
          cases eng <;> simp [zenoh_publisher_put, run_blocking]
      | some mem =>
        cases eng <;> simp [zenoh_publisher_put, run_blocking]
  · intro a mem len eng st
    cases eng <;> simp [zenoh_publisher_put, run_blocking]
  · intro a eng st
    cases eng <;> simp [zenoh_publisher_put, run_blocking, readBytes]
  · intro a mem eng st
    cases eng <;> simp [zenoh_publisher_put, run_blocking, readBytes]
  · intro a mem len m st
    simp [zenoh_publisher_put, run_blocking]
  · intro a m st
    simp [zenoh_publisher_put, run_blocking]
  · intro a mem len st
    simp [zenoh_publisher_put, run_blocking]
  · intro a st
    simp [zenoh_publisher_put, run_blocking]

/-- C4 (witness): the code characterization applied at concrete inputs. -/
theorem publisher_put_codes_witness :
    (zenoh_publisher_put none none 0 (EngineOutcome.ok ()) ⟨none⟩).code =
      ZenohError.NullPointer ∧
    (zenoh_publisher_put (some 1) none 0 (EngineOutcome.ok ()) ⟨none⟩).code = ZenohError.Ok :=
  ⟨(publisher_put_codes.1 none none 0 (EngineOutcome.ok ()) ⟨none⟩).mpr (Or.inl rfl),
   publisher_put_codes.2.2.2.2.2.2.2 1 ⟨none⟩⟩

/-- C6: `zenoh_open` with a NULL or empty configuration string opens with
the default configuration; when the config text is not valid UTF-8 or
fails to parse it returns NULL with a diagnostic and never invokes the
asynchronous open (`opened = none`); an engine connection failure returns
NULL with a diagnostic; on engine success it returns the non-null wrapper
address; and `set_error` stores the (NUL-free) diagnostic message. -/
theorem open_session_behavior :
    (∀ parse engine st,
        (zenoh_open CStr.null parse engine st).opened = some ConfigChoice.defaultConfig) ∧
    (∀ parse engine st,
        (zenoh_open (CStr.valid "") parse engine st).opened = some ConfigChoice.defaultConfig) ∧
    (∀ d parse engine st,
        zenoh_open (CStr.invalid d) parse engine st =
          { state := set_error ("Invalid UTF-8 in config: " ++ d) (clear_error st),
            ret := none, opened := none }) ∧
    (∀ s m engine st, s.isEmpty = false → ∀ parse, parse s = Except.error m →
        zenoh_open (CStr.valid s) parse engine st =
          { state := set_error ("Config parse error: " ++ m) (clear_error st),
            ret := none, opened := none }) ∧
    (∀ m parse st,
        zenoh_open CStr.null parse (EngineOutcome.err m) st =
          { state := set_error ("Failed to open session: " ++ m) (clear_error st),
            ret := none, opened := some ConfigChoice.defaultConfig }) ∧
    (∀ config parse addr st,
        (zenoh_open config parse (EngineOutcome.ok addr) st).opened ≠ none →
          (zenoh_open config parse (EngineOutcome.ok addr) st).ret = some addr) ∧
    (∀ msg st, hasInteriorNul msg = false → (set_error msg st).lastError = some msg) := by
  refine ⟨?_, ?_, ?_, ?_, ?_, ?_, ?_⟩
  · intro parse engine st
    cases engine <;> simp [zenoh_open, zenoh_open_engine, run_blocking]
  · intro parse engine st
    cases engine <;> simp [zenoh_open, zenoh_open_engine, run_blocking, string_empty_isEmpty]
  · intro d parse engine st
    simp [zenoh_open]
  · intro s m engine st hs parse hp
    simp [zenoh_open, hs, hp]
  · intro m parse st
    simp [zenoh_open, zenoh_open_engine, run_blocking]
  · intro config parse addr st h
    cases config with
    | null => simp [zenoh_open, zenoh_open_engine, run_blocking]
    | invalid d => simp [zenoh_open] at h
    | valid s =>
      by_cases he : s.isEmpty = true
      · simp [zenoh_open, he, zenoh_open_engine, run_blocking]
      · rw [Bool.not_eq_true] at he
        cases hp : parse s with
        | error m => simp [zenoh_open, he, hp] at h
        | ok u => simp [zenoh_open, he, hp, zenoh_open_engine, run_blocking]
  · intro msg st h
    simp [set_error, cstringNew, h]

/-- C6 (witness): the open-session characterization applied at concrete
inputs. -/
theorem open_session_behavior_witness :
    zenoh_open (CStr.valid "x") (fun _ => Except.error "bad") (EngineOutcome.ok 5) ⟨none⟩ =
      { state := set_error ("Config parse error: " ++ "bad") (clear_error ⟨none⟩),
        ret := none, opened := none } ∧
    (zenoh_open CStr.null (fun _ => Except.ok ()) (EngineOutcome.ok 5) ⟨none⟩).ret = some 5 ∧
    (set_error "Config parse error: bad" ⟨none⟩).lastError = some "Config parse error: bad" :=
  ⟨open_session_behavior.2.2.2.1 "x" "bad" (EngineOutcome.ok 5) ⟨none⟩ (by decide)
      (fun _ => Except.error "bad") rfl,
   open_session_behavior.2.2.2.2.2.1 CStr.null (fun _ => Except.ok ()) 5 ⟨none⟩ (by decide),
   open_session_behavior.2.2.2.2.2.2 "Config parse error: bad" ⟨none⟩ (by decide)⟩

/-- C8: whenever the marshaling body delivers a `SampleData` view to a
callback, its `timestamp_valid` flag is true with the sample's NTP64
64-bit time value and the 16-byte source identifier exactly when the
engine sample carried a logical timestamp, and false (with zeroed time
and id fields) when it did not — absence is signalled by the flag. -/
theorem sample_timestamp_marshaling :
    ∀ s sd, buildSampleData s = MarshalResult.delivered sd →
      (sd.timestamp_valid = true ↔ s.timestamp.isSome = true) ∧
      (∀ ts, s.timestamp = some ts → ts.idBytes.length = 16 →
          sd.timestamp_valid = true ∧ sd.timestamp_time = ts.ntp64 ∧
          sd.timestamp_id = ts.idBytes) ∧
      (s.timestamp = none →
          sd.timestamp_valid = false ∧ sd.timestamp_time = 0 ∧
          sd.timestamp_id = List.replicate 16 0) := by
  intro s sd h
  unfold buildSampleData at h
  cases hc : cstringNew s.key_expr with
  | none => rw [hc] at h; cases h
  | some k =>
    rw [hc] at h
    cases hts : s.timestamp with
    | none =>
      rw [hts] at h
      injection h with h2
      subst h2
      refine ⟨by simp, ?_, by simp⟩
      intro ts' hts' _
      cases hts'
    | some ts =>
      rw [hts] at h
      by_cases hlen : ts.idBytes.length < 16
      · simp [hlen] at h
      · simp [hlen] at h
        subst h
        refine ⟨by simp, ?_, by simp⟩
        intro ts' hts' hl16
        injection hts' with h3
        subst h3
        exact ⟨rfl, rfl, by simp [List.take_of_length_le hl16.le]⟩

/-- C8 (witness): the marshaling theorem applied to a concrete sample
carrying a timestamp with a 16-byte source id. -/
theorem sample_timestamp_marshaling_witness :
    buildSampleData
        { key_expr := "demo/test", payload := [104, 105], kind := SampleKind.Put,
          encoding := ⟨"text/plain"⟩, timestamp := some ⟨42, List.replicate 16 7⟩ } =
      MarshalResult.delivered
        { key_expr := "demo/test", payload := [104, 105], payload_len := 2,
          kind := ZenohSampleKind.Put, encoding_id := ZenohEncodingId.TextPlain,
          timestamp_valid := true, timestamp_time := 42,
          timestamp_id := List.replicate 16 7 } ∧
    ({ key_expr := "demo/test", payload := [104, 105], payload_len := 2,
       kind := ZenohSampleKind.Put, encoding_id := ZenohEncodingId.TextPlain,
       timestamp_valid := true, timestamp_time := 42,
       timestamp_id := List.replicate 16 7 } : SampleData).timestamp_valid = true ∧
    ({ key_expr := "demo/test", payload := [104, 105], payload_len := 2,
       kind := ZenohSampleKind.Put, encoding_id := ZenohEncodingId.TextPlain,
       timestamp_valid := true, timestamp_time := 42,
       timestamp_id := List.replicate 16 7 } : SampleData).timestamp_time = 42 :=
  ⟨by decide,
   ((sample_timestamp_marshaling
        { key_expr := "demo/test", payload := [104, 105], kind := SampleKind.Put,
          encoding := ⟨"text/plain"⟩, timestamp := some ⟨42, List.replicate 16 7⟩ }
        { key_expr := "demo/test", payload := [104, 105], payload_len := 2,
          kind := ZenohSampleKind.Put, encoding_id := ZenohEncodingId.TextPlain,
          timestamp_valid := true, timestamp_time := 42,
          timestamp_id := List.replicate 16 7 } (by decide)).2.1 ⟨42, List.replicate 16 7⟩
      rfl (by decide)).1,
   ((sample_timestamp_marshaling
        { key_expr := "demo/test", payload := [104, 105], kind := SampleKind.Put,
          encoding := ⟨"text/plain"⟩, timestamp := some ⟨42, List.replicate 16 7⟩ }
        { key_expr := "demo/test", payload := [104, 105], payload_len := 2,
          kind := ZenohSampleKind.Put, encoding_id := ZenohEncodingId.TextPlain,
          timestamp_valid := true, timestamp_time := 42,
          timestamp_id := List.replicate 16 7 } (by decide)).2.1 ⟨42, List.replicate 16 7⟩
      rfl (by decide)).2.1⟩

/-- C9: the attachment serialization loop of `zenoh_put_with_attachment`
equals the specified format — every well-formed entry in order as
key-length (4 bytes little-endian), key bytes, value-length (4 bytes
little-endian), value bytes, with malformed entries (NULL or non-UTF-8
key) skipped; malformed entries never make the call fail; and a NULL,
empty, or all-malformed attachment list results in a put with no
attachment. -/
theorem attachment_serialization :
    (∀ items, serializeLoop items = specAttachmentSerialization items) ∧
    (∀ a k mem len items st,
        (zenoh_put_with_attachment (some a) (CStr.valid k) (some mem) len items
            (EngineOutcome.ok ()) st).code = ZenohError.Ok ∧
        (zenoh_put_with_attachment (some a) (CStr.valid k) (some mem) len items
            (EngineOutcome.ok ()) st).sentAttachment = some (attachmentBytes items)) ∧
    attachmentBytes none = none ∧
    attachmentBytes (some []) = none ∧
    (∀ l, (∀ it ∈ l, itemKeyString it = none) → attachmentBytes (some l) = none) := by
  refine ⟨serializeLoop_eq_spec, ?_, rfl, rfl, ?_⟩
  · intro a k mem len items st
    constructor <;> simp [zenoh_put_with_attachment, run_blocking]
  · intro l h
    have hser : serializeLoop l = [] := by
      rw [serializeLoop_eq_spec, specAttachmentSerialization]
      have hfm : l.filterMap (fun it =>
          (itemKeyString it).map
            (fun s => specEncodeEntry s (readBytes it.value it.value_len))) = [] := by
        rw [List.filterMap_eq_nil_iff]
        intro it hit
        rw [h it hit]
        rfl
      rw [hfm]
      rfl
    cases l with
    | nil => rfl
    | cons x xs => simp [attachmentBytes, hser]

/-- C9 (witness): the serialization theorem applied at a concrete
attachment list whose single entry has a NULL key. -/
theorem attachment_serialization_witness :
    attachmentBytes (some [⟨CStr.null, none, 0⟩]) = none ∧
    serializeLoop [⟨CStr.null, none, 0⟩] =
      specAttachmentSerialization [⟨CStr.null, none, 0⟩] :=
  ⟨attachment_serialization.2.2.2.2 [⟨CStr.null, none, 0⟩]
      (by
        intro it hit
        rw [List.eq_of_mem_singleton hit]
        rfl),
   attachment_serialization.1 [⟨CStr.null, none, 0⟩]⟩

end ZenohFFI
